import Mathlib

/-!
Verification development for the pole-chain fault-detection backend and the
per-pole firmware of the Pole-managment repository.

The definitions below are a shallow embedding of:
  - the fault engine of backend/logic/FaultDetection.js (runFaultEngine),
  - the context managers RealSystem.js / SimSystem.js (updatePole,
    queueCommand, getCommands, reset, startStalenessCheck),
  - the HTTP route handlers of backend/routes/coordination.js
    (POST /state, POST /command, GET /commands/:poleId),
  - the mode gate of backend/state/systemMode.js,
  - the node state machine of arduino/utility_pole_monitor/utility_pole_monitor.ino.

Modelling conventions: JavaScript strings stay strings; timestamps are
natural numbers of milliseconds (Date.now(), millis()); nullable values are
Option; the JavaScript falsy test on recoveryStartTime accepts both null and
the number 0; analog measurements are kept as natural numbers because the
firmware only compares them against fixed thresholds; the Socket.IO emits
are recorded as an event list; the Firebase mirror writes are outside the
model (fire-and-forget, never read back by the logic).
-/

namespace PoleChain

/-- One stored pole snapshot, the fields of the stateData object that the
backend logic reads (coordination.js POST /state; FaultDetection.js reads
incomingCurrent and outgoingCurrent).  The numeric voltage and current
mirror fields are not used by any decision and are left out. -/
structure StateData where
  poleId : String
  incomingCurrent : String
  outgoingCurrent : String
  relayIn : String
  relayOut : String
  nodeState : String
  faultFlag : Bool
  timestamp : String
deriving DecidableEq, Repr

/-- The systemState record of a context (RealSystem / SimSystem constructor). -/
structure SystemState where
  status : String
  faultLocation : Option String
  faultType : Option String
  lastFaultTime : Option Nat
  lastRecoveryTime : Option Nat
  recoveryStartTime : Option Nat
  isolatedSegments : List String
deriving DecidableEq, Repr

/-- A queued relay command (the fields the engine fills; id and the PENDING
status decoration added by queueCommand carry no logic). -/
structure Command where
  action : String
  reason : String
deriving DecidableEq, Repr

/-- Socket.IO events the fault engine emits, abstracted from the per-context
event-name table of the managers. -/
inductive Event
  | gridDown
  | gridRestored
  | fault (segment : String)
  | cleared (segment : String)
deriving DecidableEq, Repr

/-- The pole-snapshot table of a context: JavaScript object keyed by pole id,
missing or nulled entries read back as none. -/
def PoleStates : Type := String → Option StateData

/-- Result of one runFaultEngine call: the updated systemState, the commands
handed to the queueCommand callback in order, the emitted events, and the
returned stateChanged flag. -/
structure SweepState where
  systemState : SystemState
  queued : List (String × Command)
  events : List Event
  changed : Bool
deriving Repr

def POLE_ORDER : List String := ["Pole1", "Pole2", "Pole3", "Pole4"]

def RECOVERY_STABLE_MS : Nat := 3000

def STALE_TIMEOUT_MS : Nat := 15000

def SWEEP_INTERVAL_MS : Nat := 5000

/-- The adjacent pairs the engine loop walks (i = 1..3, upstream first). -/
def chainPairs : List (String × String) :=
  [("Pole1", "Pole2"), ("Pole2", "Pole3"), ("Pole3", "Pole4")]

def segmentId (up down : String) : String := up ++ "-" ++ down

def snapIncoming (ps : PoleStates) (p : String) : Option String :=
  (ps p).map StateData.incomingCurrent

def snapOutgoing (ps : PoleStates) (p : String) : Option String :=
  (ps p).map StateData.outgoingCurrent

/-- JavaScript falsiness of the recoveryStartTime number-or-null field:
null and 0 are falsy. -/
def falsyTime (t : Option Nat) : Prop := t = none ∨ t = some 0

instance (t : Option Nat) : Decidable (falsyTime t) := by
  unfold falsyTime; exact inferInstance

/-- The sweep state an isolation firing leaves behind
(the FAULT branch body of the engine loop). -/
def faultFired (now : Nat) (up down : String) (st : SweepState) : SweepState :=
  { systemState := { st.systemState with
      status := "FAULT"
      faultType := some "WIRE_CUT"
      faultLocation := some (segmentId up down)
      lastFaultTime := some now
      recoveryStartTime := none
      isolatedSegments := st.systemState.isolatedSegments ++ [segmentId up down] }
    queued := st.queued ++
      [(up, { action := "DISABLE_OUTGOING_RELAY"
              reason := "Fault detected between " ++ up ++ " and " ++ down })]
    events := st.events ++ [Event.fault (segmentId up down)]
    changed := true }

/-- The FAULT branch of the engine loop body for one adjacent pair
(FaultDetection.js): downstream incoming LOW, upstream outgoing HIGH and the
segment not yet isolated fires an isolation plus one DISABLE command. -/
def faultStep (now : Nat) (ps : PoleStates) (up down : String)
    (st : SweepState) : SweepState :=
  if snapIncoming ps down = some "LOW" ∧ snapOutgoing ps up = some "HIGH" ∧
      segmentId up down ∉ st.systemState.isolatedSegments then
    faultFired now up down st
  else st

/-- The value stableFor is measured from: the shared recoveryStartTime if it
is set (and nonzero), else the current Date.now() just written into it. -/
def effectiveStart (now : Nat) (rst : Option Nat) : Nat :=
  if falsyTime rst then now else rst.getD now

/-- The isolated-segment list after one segment is cleared
(Array.prototype.filter keeps every other entry). -/
def isoAfterRemove (iso : List String) (seg : String) : List String :=
  iso.filter (fun s => s != seg)

/-- The sweep state a completed recovery leaves behind
(the RECOVERY branch body once stableFor reached 3000 ms). -/
def recoveryFired (now : Nat) (up down : String) (st : SweepState) : SweepState :=
  { systemState := { st.systemState with
      status := if isoAfterRemove st.systemState.isolatedSegments (segmentId up down) = []
        then "NORMAL" else st.systemState.status
      faultType := if isoAfterRemove st.systemState.isolatedSegments (segmentId up down) = []
        then none else st.systemState.faultType
      faultLocation := if isoAfterRemove st.systemState.isolatedSegments (segmentId up down) = []
        then none else st.systemState.faultLocation
      lastRecoveryTime := some now
      recoveryStartTime := none
      isolatedSegments := isoAfterRemove st.systemState.isolatedSegments (segmentId up down) }
    queued := st.queued ++
      [(up, { action := "ENABLE_OUTGOING_RELAY"
              reason := "Fault cleared between " ++ up ++ " and " ++ down })]
    events := st.events ++ [Event.cleared (segmentId up down)]
    changed := true }

/-- The RECOVERY branch of the engine loop body for one adjacent pair:
both sides HIGH on an isolated segment starts (or continues) the shared
recovery timer and clears the segment once 3000 ms have elapsed. -/
def recoveryStep (now : Nat) (ps : PoleStates) (up down : String)
    (st : SweepState) : SweepState :=
  if snapIncoming ps down = some "HIGH" ∧ snapOutgoing ps up = some "HIGH" ∧
      segmentId up down ∈ st.systemState.isolatedSegments then
    if RECOVERY_STABLE_MS ≤ now - effectiveStart now st.systemState.recoveryStartTime then
      recoveryFired now up down st
    else { st with systemState := { st.systemState with
      recoveryStartTime := some (effectiveStart now st.systemState.recoveryStartTime) } }
  else st

/-- Loop body for one pair: fault check then recovery check, in source order. -/
def pairStep (now : Nat) (ps : PoleStates) (up down : String)
    (st : SweepState) : SweepState :=
  recoveryStep now ps up down (faultStep now ps up down st)

/-- The engine loop over the adjacent pairs, in chain order. -/
def sweepPairs (now : Nat) (ps : PoleStates) (st : SweepState) : SweepState :=
  chainPairs.foldl (fun acc pr => pairStep now ps pr.1 pr.2 acc) st

/-- runFaultEngine of FaultDetection.js: grid-down check on Pole1 first
(early return), then the grid-recovery check (early return), then the
pair sweep.  Pairs whose snapshots are missing are skipped, which the two
step functions encode by demanding some value for the compared field. -/
def runFaultEngine (now : Nat) (ps : PoleStates) (ss : SystemState) : SweepState :=
  let init : SweepState := { systemState := ss, queued := [], events := [], changed := false }
  if snapIncoming ps "Pole1" = some "LOW" then
    if ss.status = "GRID_DOWN" then init
    else
      { systemState := { ss with
          status := "GRID_DOWN"
          faultType := some "GRID_DOWN"
          faultLocation := some "Grid"
          lastFaultTime := some now
          recoveryStartTime := none }
        queued := []
        events := [Event.gridDown]
        changed := true }
  else if snapIncoming ps "Pole1" = some "HIGH" ∧ ss.status = "GRID_DOWN" then
    { systemState := { ss with
        status := "NORMAL"
        faultType := none
        faultLocation := none
        lastRecoveryTime := some now
        isolatedSegments := [] }
      queued := []
      events := [Event.gridRestored]
      changed := true }
  else
    sweepPairs now ps init

/-! ## Context managers (RealSystem.js / SimSystem.js) -/

/-- The two coordination contexts.  The manager classes are identical except
for their baseline status and event names. -/
inductive CtxType
  | real
  | sim
deriving DecidableEq, Repr

def baselineStatus : CtxType → String
  | CtxType.real => "WAITING"
  | CtxType.sim => "SIM_IDLE"

/-- The systemState a manager is constructed with and reset() restores. -/
def initialSystemState (t : CtxType) : SystemState :=
  { status := baselineStatus t
    faultLocation := none
    faultType := none
    lastFaultTime := none
    lastRecoveryTime := none
    recoveryStartTime := none
    isolatedSegments := [] }

/-- The mutable fields of a manager instance. -/
structure ManagerState where
  poleStates : PoleStates
  pendingCommands : String → List Command
  lastUpdateTime : String → Nat
  systemState : SystemState

def initialManagerState (t : CtxType) : ManagerState :=
  { poleStates := fun _ => none
    pendingCommands := fun _ => []
    lastUpdateTime := fun _ => 0
    systemState := initialSystemState t }

/-- queueCommand of the managers: append to the per-pole pending list,
creating the entry when the pole id is unknown. -/
def queueManagerCommand (p : String) (c : Command) (m : ManagerState) : ManagerState :=
  { m with pendingCommands := fun k =>
      if k = p then m.pendingCommands k ++ [c] else m.pendingCommands k }

/-- updatePole of the managers: store the snapshot, stamp last-seen, run the
fault engine and let its queueCommand callback extend the pending queues. -/
def updatePole (now : Nat) (poleId : String) (data : StateData)
    (m : ManagerState) : ManagerState :=
  let ps2 : PoleStates := fun k => if k = poleId then some data else m.poleStates k
  let r := runFaultEngine now ps2 m.systemState
  { poleStates := ps2
    lastUpdateTime := fun k => if k = poleId then now else m.lastUpdateTime k
    pendingCommands := r.queued.foldl
      (fun pend pc => fun k => if k = pc.1 then pend k ++ [pc.2] else pend k)
      m.pendingCommands
    systemState := r.systemState }

/-- getCommands of the managers: drain and return the queue of one pole. -/
def getManagerCommands (p : String) (m : ManagerState) : List Command × ManagerState :=
  (m.pendingCommands p,
   { m with pendingCommands := fun k => if k = p then [] else m.pendingCommands k })

/-- reset() of the managers: null every snapshot, clear every queue, restore
the baseline systemState.  The last-seen table is not touched by reset(). -/
def resetManager (t : CtxType) (m : ManagerState) : ManagerState :=
  { poleStates := fun _ => none
    pendingCommands := fun _ => []
    lastUpdateTime := m.lastUpdateTime
    systemState := initialSystemState t }

/-- One pole of the staleness interval body (startStalenessCheck): the
accumulator carries the manager plus the anyActive and anyWentStale flags. -/
def stalePoleStep (now : Nat) (acc : ManagerState × Bool × Bool) (p : String) :
    ManagerState × Bool × Bool :=
  if 0 < acc.1.lastUpdateTime p then
    if STALE_TIMEOUT_MS < now - acc.1.lastUpdateTime p then
      if acc.1.poleStates p ≠ none then
        ({ acc.1 with
            poleStates := fun k => if k = p then none else acc.1.poleStates k
            lastUpdateTime := fun k => if k = p then 0 else acc.1.lastUpdateTime k },
         acc.2.1, true)
      else acc
    else (acc.1, true, acc.2.2)
  else acc

/-- One firing of the 5 s staleness interval of a manager: expire silent
poles, and when something went stale while nothing is active any more,
reset the whole context to its baseline. -/
def stalenessSweep (t : CtxType) (now : Nat) (m : ManagerState) : ManagerState :=
  if (POLE_ORDER.foldl (stalePoleStep now) (m, false, false)).2.2 = true ∧
      (POLE_ORDER.foldl (stalePoleStep now) (m, false, false)).2.1 = false then
    resetManager t (POLE_ORDER.foldl (stalePoleStep now) (m, false, false)).1
  else (POLE_ORDER.foldl (stalePoleStep now) (m, false, false)).1

/-! ## Route handlers (backend/routes/coordination.js) and the mode gate -/

/-- Outcome of a request: success JSON or an HTTP error status. -/
inductive Response
  | ok
  | error (status : Nat)
deriving DecidableEq, Repr

/-- The fields of a publish or command request body that the handlers read.
Absent JSON fields are none.  The short wire codes that map to the numeric
voltage field are outside the model, as is the voltage itself. -/
structure Body where
  poleId : String
  isSimulation : Bool
  incomingCurrent : Option String
  outgoingCurrent : Option String
  relayIn : Option String
  relayOut : Option String
  nodeState : Option String
  faultFlag : Option Bool
  timestamp : Option String
  par1 : Option String
  par2 : Option String
  pac1 : Option String
  pac2 : Option String
  pbr1 : Option String
  pbr2 : Option String
  pbc1 : Option String
  pbc2 : Option String
  pcr1 : Option String
  pcr2 : Option String
  pcc1 : Option String
  pcc2 : Option String
  pdc : Option String
  action : Option String
  reason : Option String
deriving DecidableEq, Repr

def emptyBody : Body :=
  { poleId := "", isSimulation := false, incomingCurrent := none,
    outgoingCurrent := none, relayIn := none, relayOut := none,
    nodeState := none, faultFlag := none, timestamp := none,
    par1 := none, par2 := none, pac1 := none, pac2 := none,
    pbr1 := none, pbr2 := none, pbc1 := none, pbc2 := none,
    pcr1 := none, pcr2 := none, pcc1 := none, pcc2 := none,
    pdc := none, action := none, reason := none }

/-- JavaScript truthy-guarded override, as in: if (req.body.pac1)
incomingCurrent = req.body.pac1.  An absent or empty-string code leaves the
destructured value in place. -/
def applyCode (code v : Option String) : Option String :=
  match code with
  | some c => if c = "" then v else some c
  | none => v

/-- JavaScript default via logical or, as in: incomingCurrent or UNKNOWN.
The empty string is falsy and falls back to the default. -/
def jsOrStr (v : Option String) (d : String) : String :=
  match v with
  | some s => if s = "" then d else s
  | none => d

/-- The short-code table of POST /state, incoming-current column. -/
def codeIncoming (b : Body) : Option String :=
  if b.poleId = "Pole1" then b.pac1
  else if b.poleId ≠ "Pole4" then
    if b.poleId = "Pole2" then b.pbc1
    else if b.poleId = "Pole3" then b.pcc1
    else none
  else b.pdc

/-- The short-code table of POST /state, outgoing-current column
(Pole4 has none). -/
def codeOutgoing (b : Body) : Option String :=
  if b.poleId = "Pole1" then b.pac2
  else if b.poleId ≠ "Pole4" then
    if b.poleId = "Pole2" then b.pbc2
    else if b.poleId = "Pole3" then b.pcc2
    else none
  else none

/-- The short-code table of POST /state, incoming-relay column. -/
def codeRelayIn (b : Body) : Option String :=
  if b.poleId = "Pole1" then b.par1
  else if b.poleId ≠ "Pole4" then
    if b.poleId = "Pole2" then b.pbr1
    else if b.poleId = "Pole3" then b.pcr1
    else none
  else none

/-- The short-code table of POST /state, outgoing-relay column. -/
def codeRelayOut (b : Body) : Option String :=
  if b.poleId = "Pole1" then b.par2
  else if b.poleId ≠ "Pole4" then
    if b.poleId = "Pole2" then b.pbr2
    else if b.poleId = "Pole3" then b.pcr2
    else none
  else none

/-- The stateData object literal of POST /state.  Every sanitized field is
written first and the raw request body is spread over it afterwards
(... req.body), so a canonical field present in the body wins verbatim. -/
def buildStateData (nowIso : String) (b : Body) : StateData :=
  { poleId := b.poleId
    incomingCurrent :=
      match b.incomingCurrent with
      | some s => s
      | none => jsOrStr (applyCode (codeIncoming b) b.incomingCurrent) "UNKNOWN"
    outgoingCurrent :=
      match b.outgoingCurrent with
      | some s => s
      | none =>
        if b.poleId = "Pole4" then "N/A"
        else jsOrStr (applyCode (codeOutgoing b) b.outgoingCurrent) "UNKNOWN"
    relayIn :=
      match b.relayIn with
      | some s => s
      | none =>
        if b.poleId = "Pole4" then "N/A"
        else jsOrStr (applyCode (codeRelayIn b) b.relayIn) "OFF"
    relayOut :=
      match b.relayOut with
      | some s => s
      | none =>
        if b.poleId = "Pole4" then "N/A"
        else jsOrStr (applyCode (codeRelayOut b) b.relayOut) "OFF"
    nodeState :=
      match b.nodeState with
      | some s => s
      | none => "NORMAL"
    faultFlag := b.faultFlag.getD false
    timestamp :=
      match b.timestamp with
      | some s => s
      | none => nowIso }

/-- The two live manager instances the routes dispatch to. -/
structure ServerState where
  real : ManagerState
  sim : ManagerState

def initialServerState : ServerState :=
  { real := initialManagerState CtxType.real
    sim := initialManagerState CtxType.sim }

/-- POST /api/coordination/state: mode enforcement first (403 before any
work), then sanitize, store and run the engine via the matching manager.
No pole-id validation happens on this route. -/
def postState (mode : String) (now : Nat) (nowIso : String) (b : Body)
    (srv : ServerState) : Response × ServerState :=
  if mode = "IDLE" then (Response.error 403, srv)
  else if mode = "REAL" ∧ b.isSimulation = true then (Response.error 403, srv)
  else if mode = "SIM" ∧ b.isSimulation = false then (Response.error 403, srv)
  else
    let data := buildStateData nowIso b
    if b.isSimulation then
      (Response.ok, { srv with sim := updatePole now b.poleId data srv.sim })
    else
      (Response.ok, { srv with real := updatePole now b.poleId data srv.real })

/-- POST /api/coordination/command: mode enforcement, then the truthiness
check on poleId and action, then queue.  No pole-id validation either. -/
def postCommand (mode : String) (b : Body) (srv : ServerState) :
    Response × ServerState :=
  if mode = "IDLE" then (Response.error 403, srv)
  else if mode = "REAL" ∧ b.isSimulation = true then (Response.error 403, srv)
  else if mode = "SIM" ∧ b.isSimulation = false then (Response.error 403, srv)
  else
    match b.action with
    | none => (Response.error 400, srv)
    | some a =>
      if b.poleId = "" ∨ a = "" then (Response.error 400, srv)
      else
        let cmd : Command :=
          { action := a
            reason := jsOrStr b.reason "Manual command" }
        if b.isSimulation then
          (Response.ok, { srv with sim := queueManagerCommand b.poleId cmd srv.sim })
        else
          (Response.ok, { srv with real := queueManagerCommand b.poleId cmd srv.real })

/-- GET /api/coordination/commands/:poleId: reject unknown pole ids with a
400 before draining the queue. -/
def getCommandsEndpoint (isSim : Bool) (poleId : String) (srv : ServerState) :
    Response × List Command × ServerState :=
  if poleId ∉ POLE_ORDER then (Response.error 400, [], srv)
  else if isSim then
    let r := getManagerCommands poleId srv.sim
    (Response.ok, r.1, { srv with sim := r.2 })
  else
    let r := getManagerCommands poleId srv.real
    (Response.ok, r.1, { srv with real := r.2 })

/-! ## Node firmware (utility_pole_monitor.ino) -/

inductive NState
  | NORMAL
  | GRID_DOWN
  | FAULT_UPSTREAM
  | FAULT_DOWNSTREAM
  | RECOVERY
deriving DecidableEq, Repr

def DEBOUNCE_MS : Nat := 500

def RECOVERY_MS : Nat := 3000

def OVERVOLTAGE_THRESHOLD : Nat := 260

def OVERCURRENT_THRESHOLD : Nat := 15

/-- The global mutable state of one pole sketch.  Voltage and current are
kept as naturals: the sketch only ever compares them with the fixed
thresholds, so the RMS arithmetic itself is outside the model. -/
structure NodeSM where
  currentState : NState
  incomingCurrentHigh : Bool
  outgoingCurrentHigh : Bool
  relayInEnabled : Bool
  relayOutEnabled : Bool
  measuredVoltage : Nat
  measuredCurrent : Nat
  faultFlag : Bool
  buzzer : Bool
  faultStartTime : Nat
  recoveryStart : Nat
  upstreamOutHigh : Bool
  upstreamDataValid : Bool
deriving DecidableEq, Repr

/-- What the sensors deliver on one loop iteration. -/
structure SensorInput where
  incomingHigh : Bool
  outgoingHigh : Bool
  voltage : Nat
  current : Nat
deriving DecidableEq, Repr

/-- readCurrentSensors plus readVoltageCurrent: the terminal pole has no
outgoing sensor, and analog readings are forced to zero when the digital
incoming flag says no power. -/
def readSensors (pn : Nat) (inp : SensorInput) (s : NodeSM) : NodeSM :=
  { s with
    incomingCurrentHigh := inp.incomingHigh
    outgoingCurrentHigh := if pn = 4 then false else inp.outgoingHigh
    measuredVoltage := if inp.incomingHigh then inp.voltage else 0
    measuredCurrent := if inp.incomingHigh then inp.current else 0 }

/-- enableRelay: Pole4 has neither relay pin compiled in. -/
def enableRelay (pn : Nat) (isIncoming enable : Bool) (s : NodeSM) : NodeSM :=
  if isIncoming then
    if pn = 4 then s else { s with relayInEnabled := enable }
  else
    if pn = 4 then s else { s with relayOutEnabled := enable }

/-- The overvoltage / overcurrent interlock at the end of handleNormalState:
an immediate trip of both local relays plus the alarm, with no state change. -/
def overTrip (pn : Nat) (s : NodeSM) : NodeSM :=
  if OVERVOLTAGE_THRESHOLD < s.measuredVoltage ∨
      OVERCURRENT_THRESHOLD < s.measuredCurrent then
    { (if pn = 4 then enableRelay pn true false { s with faultFlag := true }
       else enableRelay pn false false (enableRelay pn true false { s with faultFlag := true }))
      with buzzer := true }
  else s

def handleNormalState (pn now : Nat) (s0 : NodeSM) : NodeSM :=
  let s := { s0 with faultFlag := false, buzzer := false }
  if pn = 1 then
    if s.incomingCurrentHigh = false then
      let fst := if s.faultStartTime = 0 then now else s.faultStartTime
      if DEBOUNCE_MS ≤ now - fst then
        { s with currentState := NState.GRID_DOWN, faultFlag := true, faultStartTime := 0 }
      else { s with faultStartTime := fst }
    else overTrip pn { s with faultStartTime := 0 }
  else
    if s.incomingCurrentHigh = false ∧ s.upstreamDataValid = true ∧
        s.upstreamOutHigh = true then
      let fst := if s.faultStartTime = 0 then now else s.faultStartTime
      if DEBOUNCE_MS ≤ now - fst then
        { s with currentState := NState.FAULT_UPSTREAM, faultFlag := true, faultStartTime := 0 }
      else { s with faultStartTime := fst }
    else overTrip pn { s with faultStartTime := 0 }

def handleGridDownState (s0 : NodeSM) : NodeSM :=
  let s := { s0 with faultFlag := true, buzzer := true }
  if s.incomingCurrentHigh then
    { s with currentState := NState.NORMAL, faultFlag := false, buzzer := false }
  else s

def handleFaultUpstreamState (s0 : NodeSM) : NodeSM :=
  let s := { s0 with faultFlag := true, buzzer := true }
  if s.incomingCurrentHigh then
    { s with currentState := NState.NORMAL, faultFlag := false, buzzer := false }
  else s

def handleFaultDownstreamState (pn now : Nat) (s0 : NodeSM) : NodeSM :=
  let s := { s0 with faultFlag := true }
  if pn ≠ 4 ∧ s.outgoingCurrentHigh = true then
    { s with currentState := NState.RECOVERY, recoveryStart := now }
  else s

def handleRecoveryState (pn now : Nat) (s : NodeSM) : NodeSM :=
  if ¬(s.incomingCurrentHigh = true ∧
      (pn = 4 ∨ s.outgoingCurrentHigh = true ∨ s.relayOutEnabled = false)) then
    { s with currentState := NState.FAULT_DOWNSTREAM, recoveryStart := 0 }
  else if RECOVERY_MS ≤ now - s.recoveryStart then
    { (if pn = 4 then { s with currentState := NState.NORMAL, faultFlag := false }
       else enableRelay pn false true
         { s with currentState := NState.NORMAL, faultFlag := false })
      with buzzer := false, recoveryStart := 0 }
  else s

def runStateMachine (pn now : Nat) (s : NodeSM) : NodeSM :=
  match s.currentState with
  | NState.NORMAL => handleNormalState pn now s
  | NState.GRID_DOWN => handleGridDownState s
  | NState.FAULT_UPSTREAM => handleFaultUpstreamState s
  | NState.FAULT_DOWNSTREAM => handleFaultDownstreamState pn now s
  | NState.RECOVERY => handleRecoveryState pn now s

/-- One loop() iteration up to the state machine: sensor read then dispatch. -/
def tick (pn now : Nat) (inp : SensorInput) (s : NodeSM) : NodeSM :=
  runStateMachine pn now (readSensors pn inp s)

/-- A run of loop() iterations, each with its millis() value and sensors. -/
def runTicks (pn : Nat) (ticks : List (Nat × SensorInput)) (s : NodeSM) : NodeSM :=
  ticks.foldl (fun st p => tick pn p.1 p.2 st) s

/-- pollCommands of the sketch: the response body is string-searched for the
two relay commands; DISABLE wins when both words occur.  The terminal pole
ignores both. -/
def applyDisableCommand (pn : Nat) (hasDisable : Bool) (s : NodeSM) : NodeSM :=
  if hasDisable = true ∧ pn ≠ 4 then
    { (enableRelay pn false false s) with
        currentState := NState.FAULT_DOWNSTREAM, faultFlag := true, buzzer := true }
  else s

def applyEnableCommand (pn now : Nat) (hasDisable hasEnable : Bool) (s : NodeSM) : NodeSM :=
  if hasEnable = true ∧ hasDisable = false ∧ pn ≠ 4 then
    { (enableRelay pn false true s) with
        currentState := NState.RECOVERY, recoveryStart := now }
  else s

def applyCommandBody (pn now : Nat) (hasDisable hasEnable : Bool) (s : NodeSM) : NodeSM :=
  applyEnableCommand pn now hasDisable hasEnable (applyDisableCommand pn hasDisable s)

/-! ## Step lemmas for the fault engine -/

/-- The sweep accumulator a run starts from. -/
def initSweep (ss : SystemState) : SweepState :=
  { systemState := ss, queued := [], events := [], changed := false }

theorem initSweep_systemState (ss : SystemState) : (initSweep ss).systemState = ss := rfl

theorem faultStep_skip {now : Nat} {ps : PoleStates} {up down : String} {st : SweepState}
    (h : ¬(snapIncoming ps down = some "LOW" ∧ snapOutgoing ps up = some "HIGH" ∧
      segmentId up down ∉ st.systemState.isolatedSegments)) :
    faultStep now ps up down st = st := by
  unfold faultStep
  exact if_neg h

theorem faultStep_fire {now : Nat} {ps : PoleStates} {up down : String} {st : SweepState}
    (h1 : snapIncoming ps down = some "LOW") (h2 : snapOutgoing ps up = some "HIGH")
    (h3 : segmentId up down ∉ st.systemState.isolatedSegments) :
    faultStep now ps up down st = faultFired now up down st := by
  unfold faultStep
  exact if_pos ⟨h1, h2, h3⟩

theorem not_falsy_some {t : Nat} (h0 : t ≠ 0) : ¬ falsyTime (some t) := by
  simp [falsyTime, h0]

theorem effectiveStart_falsy {now : Nat} {rst : Option Nat} (h : falsyTime rst) :
    effectiveStart now rst = now := if_pos h

theorem effectiveStart_some {now t : Nat} (h0 : t ≠ 0) :
    effectiveStart now (some t) = t := by
  unfold effectiveStart
  rw [if_neg (not_falsy_some h0)]
  rfl

theorem recoveryStep_skip {now : Nat} {ps : PoleStates} {up down : String} {st : SweepState}
    (h : ¬(snapIncoming ps down = some "HIGH" ∧ snapOutgoing ps up = some "HIGH" ∧
      segmentId up down ∈ st.systemState.isolatedSegments)) :
    recoveryStep now ps up down st = st := by
  unfold recoveryStep
  exact if_neg h

theorem recoveryStep_start {now : Nat} {ps : PoleStates} {up down : String} {st : SweepState}
    (h1 : snapIncoming ps down = some "HIGH") (h2 : snapOutgoing ps up = some "HIGH")
    (h3 : segmentId up down ∈ st.systemState.isolatedSegments)
    (hf : falsyTime st.systemState.recoveryStartTime) :
    recoveryStep now ps up down st =
      { st with systemState := { st.systemState with recoveryStartTime := some now } } := by
  unfold recoveryStep
  rw [if_pos ⟨h1, h2, h3⟩, effectiveStart_falsy hf, Nat.sub_self,
    if_neg (by decide : ¬ RECOVERY_STABLE_MS ≤ 0)]

theorem recoveryStep_wait {now t : Nat} {ps : PoleStates} {up down : String} {st : SweepState}
    (h1 : snapIncoming ps down = some "HIGH") (h2 : snapOutgoing ps up = some "HIGH")
    (h3 : segmentId up down ∈ st.systemState.isolatedSegments)
    (ht : st.systemState.recoveryStartTime = some t) (h0 : t ≠ 0)
    (hlt : now - t < RECOVERY_STABLE_MS) :
    recoveryStep now ps up down st = st := by
  unfold recoveryStep
  rw [if_pos ⟨h1, h2, h3⟩, ht, effectiveStart_some h0, if_neg (Nat.not_le.mpr hlt)]
  cases st with
  | mk ss q e c =>
    cases ss
    simp_all

theorem recoveryStep_done {now t : Nat} {ps : PoleStates} {up down : String} {st : SweepState}
    (h1 : snapIncoming ps down = some "HIGH") (h2 : snapOutgoing ps up = some "HIGH")
    (h3 : segmentId up down ∈ st.systemState.isolatedSegments)
    (ht : st.systemState.recoveryStartTime = some t) (h0 : t ≠ 0)
    (hge : RECOVERY_STABLE_MS ≤ now - t) :
    recoveryStep now ps up down st = recoveryFired now up down st := by
  unfold recoveryStep
  rw [if_pos ⟨h1, h2, h3⟩, ht, effectiveStart_some h0, if_pos hge]

/-- A pair whose snapshots can trigger neither the fault rule nor the
recovery rule (with respect to a given isolated-segment list). -/
def pairInactive (ps : PoleStates) (iso : List String) (up down : String) : Prop :=
  ¬(snapIncoming ps down = some "LOW" ∧ snapOutgoing ps up = some "HIGH") ∧
  ¬(snapIncoming ps down = some "HIGH" ∧ snapOutgoing ps up = some "HIGH" ∧
    segmentId up down ∈ iso)

instance (ps : PoleStates) (iso : List String) (up down : String) :
    Decidable (pairInactive ps iso up down) := by
  unfold pairInactive; exact inferInstance

theorem pairStep_inactive {now : Nat} {ps : PoleStates} (up down : String) {st : SweepState}
    (hq : pairInactive ps st.systemState.isolatedSegments up down) :
    pairStep now ps up down st = st := by
  unfold pairStep
  rw [faultStep_skip (fun hc => hq.1 ⟨hc.1, hc.2.1⟩), recoveryStep_skip hq.2]

theorem pairInactive_congr {ps : PoleStates} {iso1 iso2 : List String} {up down : String}
    (hm : segmentId up down ∈ iso1 ↔ segmentId up down ∈ iso2)
    (h : pairInactive ps iso1 up down) : pairInactive ps iso2 up down :=
  ⟨h.1, fun hc => h.2 ⟨hc.1, hc.2.1, hm.mpr hc.2.2⟩⟩

theorem faultStep_mem_ne {now : Nat} {ps : PoleStates} {up down s0 : String} {st : SweepState}
    (hne : s0 ≠ segmentId up down) :
    (s0 ∈ (faultStep now ps up down st).systemState.isolatedSegments ↔
      s0 ∈ st.systemState.isolatedSegments) := by
  unfold faultStep
  split_ifs with h
  · simp [faultFired, hne]
  · exact Iff.rfl

theorem recoveryStep_mem_ne {now : Nat} {ps : PoleStates} {up down s0 : String} {st : SweepState}
    (hne : s0 ≠ segmentId up down) :
    (s0 ∈ (recoveryStep now ps up down st).systemState.isolatedSegments ↔
      s0 ∈ st.systemState.isolatedSegments) := by
  unfold recoveryStep
  split_ifs with h h2
  · simp [recoveryFired, isoAfterRemove, List.mem_filter, bne_iff_ne, hne]
  · exact Iff.rfl
  · exact Iff.rfl

theorem pairStep_mem_ne {now : Nat} {ps : PoleStates} {up down s0 : String} {st : SweepState}
    (hne : s0 ≠ segmentId up down) :
    (s0 ∈ (pairStep now ps up down st).systemState.isolatedSegments ↔
      s0 ∈ st.systemState.isolatedSegments) := by
  unfold pairStep
  exact (recoveryStep_mem_ne hne).trans (faultStep_mem_ne hne)

theorem faultStep_status {now : Nat} {ps : PoleStates} {up down : String} {st : SweepState} :
    (faultStep now ps up down st).systemState.status = st.systemState.status ∨
    (faultStep now ps up down st).systemState.status = "FAULT" := by
  unfold faultStep
  split_ifs with h
  · right; rfl
  · left; rfl

theorem recoveryStep_status {now : Nat} {ps : PoleStates} {up down : String} {st : SweepState} :
    (recoveryStep now ps up down st).systemState.status = st.systemState.status ∨
    (recoveryStep now ps up down st).systemState.status = "NORMAL" := by
  unfold recoveryStep
  split_ifs with h h2
  · by_cases hiso : isoAfterRemove st.systemState.isolatedSegments (segmentId up down) = []
    · right; simp [recoveryFired, hiso]
    · left; simp [recoveryFired, hiso]
  · left; rfl
  · left; rfl

theorem pairStep_status_ne_gridDown {now : Nat} {ps : PoleStates} {up down : String}
    {st : SweepState} (h : st.systemState.status ≠ "GRID_DOWN") :
    (pairStep now ps up down st).systemState.status ≠ "GRID_DOWN" := by
  unfold pairStep
  rcases recoveryStep_status with h2 | h2 <;> rw [h2]
  · rcases faultStep_status with h3 | h3 <;> rw [h3]
    · exact h
    · decide
  · decide

theorem runFaultEngine_loop (now : Nat) (ps : PoleStates) (ss : SystemState)
    (h1 : snapIncoming ps "Pole1" ≠ some "LOW")
    (h2 : ¬(snapIncoming ps "Pole1" = some "HIGH" ∧ ss.status = "GRID_DOWN")) :
    runFaultEngine now ps ss = sweepPairs now ps (initSweep ss) := by
  unfold runFaultEngine
  rw [if_neg h1, if_neg h2]
  rfl

theorem sweepPairs_unfold (now : Nat) (ps : PoleStates) (st : SweepState) :
    sweepPairs now ps st =
      pairStep now ps "Pole3" "Pole4" (pairStep now ps "Pole2" "Pole3"
        (pairStep now ps "Pole1" "Pole2" st)) := rfl

theorem runFaultEngine_gridStay (now : Nat) (ps : PoleStates) (ss : SystemState)
    (h1 : snapIncoming ps "Pole1" = some "LOW") (h2 : ss.status = "GRID_DOWN") :
    runFaultEngine now ps ss = initSweep ss := by
  unfold runFaultEngine
  rw [if_pos h1, if_pos h2]
  rfl

theorem runFaultEngine_gridNew (now : Nat) (ps : PoleStates) (ss : SystemState)
    (h1 : snapIncoming ps "Pole1" = some "LOW") (h2 : ss.status ≠ "GRID_DOWN") :
    runFaultEngine now ps ss =
      { systemState := { ss with
          status := "GRID_DOWN"
          faultType := some "GRID_DOWN"
          faultLocation := some "Grid"
          lastFaultTime := some now
          recoveryStartTime := none }
        queued := []
        events := [Event.gridDown]
        changed := true } := by
  unfold runFaultEngine
  rw [if_pos h1, if_neg h2]

theorem exists_some_of_not_falsy {rst : Option Nat} (hf : ¬ falsyTime rst) :
    ∃ t, rst = some t ∧ t ≠ 0 := by
  cases rst with
  | none => exact absurd (Or.inl rfl) hf
  | some t =>
    refine ⟨t, rfl, fun h0 => hf (Or.inr ?_)⟩
    rw [h0]

theorem faultStep_rst_shape (now : Nat) (ps : PoleStates) (up down : String) (st : SweepState) :
    (faultStep now ps up down st).systemState.recoveryStartTime =
      st.systemState.recoveryStartTime ∨
    (faultStep now ps up down st).systemState.recoveryStartTime = none := by
  unfold faultStep
  split_ifs
  · right; rfl
  · left; rfl

theorem recoveryStep_rst_shape (now : Nat) (ps : PoleStates) (up down : String) (st : SweepState) :
    (recoveryStep now ps up down st).systemState.recoveryStartTime =
      st.systemState.recoveryStartTime ∨
    (recoveryStep now ps up down st).systemState.recoveryStartTime = none ∨
    (recoveryStep now ps up down st).systemState.recoveryStartTime = some now := by
  unfold recoveryStep
  split_ifs with h1 h2
  · right; left; rfl
  · by_cases hf : falsyTime st.systemState.recoveryStartTime
    · right; right
      show some (effectiveStart now st.systemState.recoveryStartTime) = some now
      rw [effectiveStart_falsy hf]
    · left
      obtain ⟨t, ht, h0⟩ := exists_some_of_not_falsy hf
      show some (effectiveStart now st.systemState.recoveryStartTime) =
        st.systemState.recoveryStartTime
      rw [ht, effectiveStart_some h0]
  · left; rfl

theorem pairStep_rst_shape (now : Nat) (ps : PoleStates) (up down : String) (st : SweepState) :
    (pairStep now ps up down st).systemState.recoveryStartTime =
      st.systemState.recoveryStartTime ∨
    (pairStep now ps up down st).systemState.recoveryStartTime = none ∨
    (pairStep now ps up down st).systemState.recoveryStartTime = some now := by
  unfold pairStep
  rcases recoveryStep_rst_shape now ps up down (faultStep now ps up down st) with h | h | h
  · rw [h]
    rcases faultStep_rst_shape now ps up down st with h2 | h2
    · left; exact h2
    · right; left; exact h2
  · right; left; exact h
  · right; right; exact h

/-- A pair is safe with respect to a system state when running its loop body
can change nothing visible: the fault rule cannot fire, and the recovery
rule cannot have accumulated 3000 ms yet. -/
def safePair (now : Nat) (ps : PoleStates) (ss : SystemState) (up down : String) : Prop :=
  ¬(snapIncoming ps down = some "LOW" ∧ snapOutgoing ps up = some "HIGH" ∧
    segmentId up down ∉ ss.isolatedSegments) ∧
  ((snapIncoming ps down = some "HIGH" ∧ snapOutgoing ps up = some "HIGH" ∧
    segmentId up down ∈ ss.isolatedSegments ∧ ¬ falsyTime ss.recoveryStartTime) →
    now - ss.recoveryStartTime.getD 0 < RECOVERY_STABLE_MS)

theorem safePair_rst_now {now : Nat} {ps : PoleStates} {ss : SystemState} {up down : String}
    (h : safePair now ps ss up down) :
    safePair now ps { ss with recoveryStartTime := some now } up down := by
  constructor
  · exact h.1
  · rintro ⟨-, -, -, hnf⟩
    by_cases h0 : now = 0
    · subst h0; exact absurd (Or.inr rfl) hnf
    · show now - (Option.getD (some now) 0) < RECOVERY_STABLE_MS
      rw [Option.getD_some, Nat.sub_self]
      decide

theorem safe_step_shape {now : Nat} {ps : PoleStates} {up down : String} {st : SweepState}
    (h : safePair now ps st.systemState up down) :
    pairStep now ps up down st = st ∨
    pairStep now ps up down st =
      { st with systemState := { st.systemState with recoveryStartTime := some now } } := by
  unfold pairStep
  rw [faultStep_skip h.1]
  by_cases hc : snapIncoming ps down = some "HIGH" ∧ snapOutgoing ps up = some "HIGH" ∧
      segmentId up down ∈ st.systemState.isolatedSegments
  · by_cases hf : falsyTime st.systemState.recoveryStartTime
    · right; exact recoveryStep_start hc.1 hc.2.1 hc.2.2 hf
    · left
      obtain ⟨t, ht, h0⟩ := exists_some_of_not_falsy hf
      have hlt : now - t < RECOVERY_STABLE_MS := by
        have h2 := h.2 ⟨hc.1, hc.2.1, hc.2.2, hf⟩
        rw [ht] at h2
        simpa using h2
      exact recoveryStep_wait hc.1 hc.2.1 hc.2.2 ht h0 hlt
  · left; exact recoveryStep_skip hc

theorem safe_establish (now : Nat) (ps : PoleStates) (up down : String) (st : SweepState) :
    safePair now ps (pairStep now ps up down st).systemState up down := by
  unfold pairStep
  by_cases hfc : snapIncoming ps down = some "LOW" ∧ snapOutgoing ps up = some "HIGH" ∧
      segmentId up down ∉ st.systemState.isolatedSegments
  · rw [faultStep_fire hfc.1 hfc.2.1 hfc.2.2,
      recoveryStep_skip (fun hc => absurd (hfc.1.symm.trans hc.1) (by decide))]
    constructor
    · rintro ⟨-, -, hm⟩
      exact hm (by simp [faultFired])
    · rintro ⟨-, -, -, hnf⟩
      exact absurd (Or.inl rfl) hnf
  · rw [faultStep_skip hfc]
    by_cases hrc : snapIncoming ps down = some "HIGH" ∧ snapOutgoing ps up = some "HIGH" ∧
        segmentId up down ∈ st.systemState.isolatedSegments
    · by_cases hf : falsyTime st.systemState.recoveryStartTime
      · rw [recoveryStep_start hrc.1 hrc.2.1 hrc.2.2 hf]
        constructor
        · exact hfc
        · rintro ⟨-, -, -, hnf⟩
          by_cases h0 : now = 0
          · subst h0; exact absurd (Or.inr rfl) hnf
          · show now - (Option.getD (some now) 0) < RECOVERY_STABLE_MS
            rw [Option.getD_some, Nat.sub_self]
            decide
      · obtain ⟨t, ht, h0⟩ := exists_some_of_not_falsy hf
        by_cases hge : RECOVERY_STABLE_MS ≤ now - t
        · rw [recoveryStep_done hrc.1 hrc.2.1 hrc.2.2 ht h0 hge]
          constructor
          · rintro ⟨hl, -, -⟩
            exact absurd (hrc.1.symm.trans hl) (by decide)
          · rintro ⟨-, -, -, hnf⟩
            exact absurd (Or.inl rfl) hnf
        · rw [recoveryStep_wait hrc.1 hrc.2.1 hrc.2.2 ht h0 (Nat.not_le.mp hge)]
          constructor
          · exact hfc
          · rintro ⟨-, -, -, -⟩
            rw [ht]
            simpa using Nat.not_le.mp hge
    · rw [recoveryStep_skip hrc]
      exact ⟨hfc, fun hc => absurd ⟨hc.1, hc.2.1, hc.2.2.1⟩ hrc⟩

theorem safe_preserve {now : Nat} {ps : PoleStates} {up down up2 down2 : String} {st : SweepState}
    (hne : segmentId up2 down2 ≠ segmentId up down)
    (hsafe : safePair now ps st.systemState up2 down2) :
    safePair now ps (pairStep now ps up down st).systemState up2 down2 := by
  constructor
  · rintro ⟨hl, hh, hm⟩
    exact hsafe.1 ⟨hl, hh, fun hmem => hm ((pairStep_mem_ne hne).mpr hmem)⟩
  · rintro ⟨hh1, hh2, hmem, hnf⟩
    have hmem0 := (pairStep_mem_ne hne).mp hmem
    rcases pairStep_rst_shape now ps up down st with hr | hr | hr
    · rw [hr] at hnf ⊢
      exact hsafe.2 ⟨hh1, hh2, hmem0, hnf⟩
    · rw [hr] at hnf
      exact absurd (Or.inl rfl) hnf
    · rw [hr] at hnf ⊢
      by_cases h0 : now = 0
      · subst h0; exact absurd (Or.inr rfl) hnf
      · rw [Option.getD_some, Nat.sub_self]
        decide

theorem safe_pairStep_fields {now : Nat} {ps : PoleStates} {up down : String} {st : SweepState}
    (hsafe : safePair now ps st.systemState up down) :
    (pairStep now ps up down st).changed = st.changed ∧
    (pairStep now ps up down st).queued = st.queued ∧
    (pairStep now ps up down st).events = st.events ∧
    (pairStep now ps up down st).systemState.isolatedSegments =
      st.systemState.isolatedSegments ∧
    (∀ u2 d2, safePair now ps st.systemState u2 d2 →
      safePair now ps (pairStep now ps up down st).systemState u2 d2) := by
  rcases safe_step_shape hsafe with h | h <;> rw [h]
  · exact ⟨rfl, rfl, rfl, rfl, fun _ _ hs => hs⟩
  · exact ⟨rfl, rfl, rfl, rfl, fun _ _ hs => safePair_rst_now hs⟩

theorem sweep_establishes_safety (now : Nat) (ps : PoleStates) (st : SweepState) :
    safePair now ps (sweepPairs now ps st).systemState "Pole1" "Pole2" ∧
    safePair now ps (sweepPairs now ps st).systemState "Pole2" "Pole3" ∧
    safePair now ps (sweepPairs now ps st).systemState "Pole3" "Pole4" := by
  rw [sweepPairs_unfold]
  refine ⟨?_, ?_, ?_⟩
  · exact safe_preserve (by decide)
      (safe_preserve (by decide) (safe_establish now ps "Pole1" "Pole2" st))
  · exact safe_preserve (by decide)
      (safe_establish now ps "Pole2" "Pole3" (pairStep now ps "Pole1" "Pole2" st))
  · exact safe_establish now ps "Pole3" "Pole4"
      (pairStep now ps "Pole2" "Pole3" (pairStep now ps "Pole1" "Pole2" st))

theorem safe_all_sweep (now : Nat) (ps : PoleStates) (st : SweepState)
    (h12 : safePair now ps st.systemState "Pole1" "Pole2")
    (h23 : safePair now ps st.systemState "Pole2" "Pole3")
    (h34 : safePair now ps st.systemState "Pole3" "Pole4") :
    (sweepPairs now ps st).changed = st.changed ∧
    (sweepPairs now ps st).queued = st.queued ∧
    (sweepPairs now ps st).events = st.events ∧
    (sweepPairs now ps st).systemState.isolatedSegments =
      st.systemState.isolatedSegments := by
  rw [sweepPairs_unfold]
  obtain ⟨c1, q1, e1, i1, p1⟩ := safe_pairStep_fields h12
  obtain ⟨c2, q2, e2, i2, p2⟩ := safe_pairStep_fields (p1 "Pole2" "Pole3" h23)
  obtain ⟨c3, q3, e3, i3, p3⟩ := safe_pairStep_fields (p2 "Pole3" "Pole4" (p1 "Pole3" "Pole4" h34))
  exact ⟨c3.trans (c2.trans c1), q3.trans (q2.trans q1), e3.trans (e2.trans e1),
    i3.trans (i2.trans i1)⟩

theorem mkSweep_systemState (ss : SystemState) (q : List (String × Command))
    (e : List Event) (c : Bool) :
    ({ systemState := ss, queued := q, events := e, changed := c } : SweepState).systemState
      = ss := rfl

/-- Convenience builder for concrete snapshots in witnesses. -/
def mkSnap (pid inc outc : String) : StateData :=
  { poleId := pid, incomingCurrent := inc, outgoingCurrent := outc,
    relayIn := "ON", relayOut := "ON", nodeState := "NORMAL",
    faultFlag := false, timestamp := "t0" }

/-- Claim C2: when the first node reports incoming LOW, one engine run ends
with status GRID_DOWN, transitioning and emitting the grid-down event only
if the status was not already GRID_DOWN, and returns before the pair sweep:
the isolated segments are untouched and no command is queued, whatever the
downstream snapshots show. -/
theorem claim2_grid_down_precedence (now : Nat) (ps : PoleStates) (ss : SystemState)
    (p1 : StateData) (hp1 : ps "Pole1" = some p1) (hlow : p1.incomingCurrent = "LOW") :
    (runFaultEngine now ps ss).systemState.status = "GRID_DOWN" ∧
    (runFaultEngine now ps ss).systemState.isolatedSegments = ss.isolatedSegments ∧
    (runFaultEngine now ps ss).queued = [] ∧
    (runFaultEngine now ps ss).events =
      (if ss.status = "GRID_DOWN" then [] else [Event.gridDown]) ∧
    (runFaultEngine now ps ss).changed = (if ss.status = "GRID_DOWN" then false else true) := by
  have hsnap : snapIncoming ps "Pole1" = some "LOW" := by
    simp [snapIncoming, hp1, hlow]
  by_cases hgd : ss.status = "GRID_DOWN"
  · rw [runFaultEngine_gridStay now ps ss hsnap hgd]
    simp [initSweep, hgd]
  · rw [runFaultEngine_gridNew now ps ss hsnap hgd]
    simp [hgd]

def c2p1 : StateData := mkSnap "Pole1" "LOW" "HIGH"

def c2p2 : StateData := mkSnap "Pole2" "LOW" "UNKNOWN"

/-- The witness store for C2 also contains a downstream mismatch
(Pole1 outgoing HIGH against Pole2 incoming LOW) that the early return skips. -/
def c2ps : PoleStates :=
  fun k => if k = "Pole1" then some c2p1 else if k = "Pole2" then some c2p2 else none

theorem claim2_witness :
    c2ps "Pole1" = some c2p1 ∧ c2p1.incomingCurrent = "LOW" ∧
    ((runFaultEngine 50 c2ps (initialSystemState CtxType.real)).systemState.status = "GRID_DOWN" ∧
     (runFaultEngine 50 c2ps (initialSystemState CtxType.real)).systemState.isolatedSegments =
       (initialSystemState CtxType.real).isolatedSegments ∧
     (runFaultEngine 50 c2ps (initialSystemState CtxType.real)).queued = [] ∧
     (runFaultEngine 50 c2ps (initialSystemState CtxType.real)).events =
       (if (initialSystemState CtxType.real).status = "GRID_DOWN" then []
        else [Event.gridDown]) ∧
     (runFaultEngine 50 c2ps (initialSystemState CtxType.real)).changed =
       (if (initialSystemState CtxType.real).status = "GRID_DOWN" then false else true)) :=
  ⟨rfl, rfl, claim2_grid_down_precedence 50 c2ps (initialSystemState CtxType.real) c2p1 rfl rfl⟩

def c3p1 : StateData := mkSnap "Pole1" "HIGH" "HIGH"

def c3p2 : StateData := mkSnap "Pole2" "LOW" "UNKNOWN"

def c3ps : PoleStates :=
  fun k => if k = "Pole1" then some c3p1 else if k = "Pole2" then some c3p2 else none

def c3ss : SystemState := { initialSystemState CtxType.real with status := "GRID_DOWN" }

/-- Counterexample to claim C3 as stated: on an unchanged store whose first
run takes the grid-recovery early return (Pole1 back HIGH while status is
GRID_DOWN, with a pending Pole1-Pole2 mismatch downstream), the second run
adds an isolation the first run did not add and returns changed = true. -/
theorem claim3_counterexample :
    (runFaultEngine 1000 c3ps c3ss).changed = true ∧
    "Pole1-Pole2" ∉ (runFaultEngine 1000 c3ps c3ss).systemState.isolatedSegments ∧
    (runFaultEngine 1000 c3ps (runFaultEngine 1000 c3ps c3ss).systemState).changed = true ∧
    "Pole1-Pole2" ∈ (runFaultEngine 1000 c3ps
      (runFaultEngine 1000 c3ps c3ss).systemState).systemState.isolatedSegments := by
  decide

/-- Claim C3 (amended): running the sweep twice on an unchanged store at one
instant adds no isolation on the second run and returns changed = false the
second time, provided the first run is not the grid-recovery transition
(first node HIGH while status is GRID_DOWN); that transition masks pending
pair mismatches for exactly one run, as the counterexample shows. -/
theorem claim3_amended (now : Nat) (ps : PoleStates) (ss : SystemState)
    (hng : ¬(snapIncoming ps "Pole1" = some "HIGH" ∧ ss.status = "GRID_DOWN")) :
    (runFaultEngine now ps (runFaultEngine now ps ss).systemState).changed = false ∧
    (runFaultEngine now ps (runFaultEngine now ps ss).systemState).queued = [] ∧
    (runFaultEngine now ps (runFaultEngine now ps ss).systemState).events = [] ∧
    (runFaultEngine now ps (runFaultEngine now ps ss).systemState).systemState.isolatedSegments =
      (runFaultEngine now ps ss).systemState.isolatedSegments := by
  by_cases hlow : snapIncoming ps "Pole1" = some "LOW"
  · by_cases hgd : ss.status = "GRID_DOWN"
    · rw [runFaultEngine_gridStay now ps ss hlow hgd, initSweep_systemState,
        runFaultEngine_gridStay now ps ss hlow hgd]
      exact ⟨rfl, rfl, rfl, rfl⟩
    · rw [runFaultEngine_gridNew now ps ss hlow hgd, mkSweep_systemState,
        runFaultEngine_gridStay now ps _ hlow rfl]
      exact ⟨rfl, rfl, rfl, rfl⟩
  · rw [runFaultEngine_loop now ps ss hlow hng]
    obtain ⟨hs12, hs23, hs34⟩ := sweep_establishes_safety now ps (initSweep ss)
    have hstat2 : ¬(snapIncoming ps "Pole1" = some "HIGH" ∧
        (sweepPairs now ps (initSweep ss)).systemState.status = "GRID_DOWN") := by
      by_cases hgd : ss.status = "GRID_DOWN"
      · exact fun hc => hng ⟨hc.1, hgd⟩
      · intro hc
        apply absurd hc.2
        rw [sweepPairs_unfold]
        exact pairStep_status_ne_gridDown (pairStep_status_ne_gridDown
          (pairStep_status_ne_gridDown hgd))
    rw [runFaultEngine_loop now ps (sweepPairs now ps (initSweep ss)).systemState hlow hstat2]
    have hall := safe_all_sweep now ps
      (initSweep (sweepPairs now ps (initSweep ss)).systemState) hs12 hs23 hs34
    exact ⟨hall.1, hall.2.1, hall.2.2.1, hall.2.2.2⟩

theorem claim3_witness :
    ¬(snapIncoming c3ps "Pole1" = some "HIGH" ∧
      (initialSystemState CtxType.real).status = "GRID_DOWN") ∧
    ((runFaultEngine 7 c3ps
        (runFaultEngine 7 c3ps (initialSystemState CtxType.real)).systemState).changed = false ∧
     (runFaultEngine 7 c3ps
        (runFaultEngine 7 c3ps (initialSystemState CtxType.real)).systemState).queued = [] ∧
     (runFaultEngine 7 c3ps
        (runFaultEngine 7 c3ps (initialSystemState CtxType.real)).systemState).events = [] ∧
     (runFaultEngine 7 c3ps
        (runFaultEngine 7 c3ps
          (initialSystemState CtxType.real)).systemState).systemState.isolatedSegments =
       (runFaultEngine 7 c3ps (initialSystemState CtxType.real)).systemState.isolatedSegments) :=
  ⟨by decide, claim3_amended 7 c3ps (initialSystemState CtxType.real) (by decide)⟩

theorem mem_append_singleton_ne {s1 s2 : String} {l : List String} (hne : s1 ≠ s2) :
    s1 ∈ l ++ [s2] ↔ s1 ∈ l := by simp [hne]

theorem mem_isoAfterRemove_ne {s0 seg : String} {l : List String} (hne : s0 ≠ seg) :
    s0 ∈ isoAfterRemove l seg ↔ s0 ∈ l := by
  simp [isoAfterRemove, List.mem_filter, bne_iff_ne, hne]

theorem self_not_mem_isoAfterRemove (seg : String) (l : List String) :
    seg ∉ isoAfterRemove l seg := by
  simp [isoAfterRemove, List.mem_filter]

theorem pairStep_fault_fire {now : Nat} {ps : PoleStates} {up down : String} {st : SweepState}
    (h1 : snapIncoming ps down = some "LOW") (h2 : snapOutgoing ps up = some "HIGH")
    (h3 : segmentId up down ∉ st.systemState.isolatedSegments) :
    pairStep now ps up down st = faultFired now up down st := by
  unfold pairStep
  rw [faultStep_fire h1 h2 h3,
    recoveryStep_skip (fun hc => absurd (h1.symm.trans hc.1) (by decide))]

theorem pairStep_recovery_start {now : Nat} {ps : PoleStates} {up down : String} {st : SweepState}
    (h1 : snapIncoming ps down = some "HIGH") (h2 : snapOutgoing ps up = some "HIGH")
    (h3 : segmentId up down ∈ st.systemState.isolatedSegments)
    (hf : falsyTime st.systemState.recoveryStartTime) :
    pairStep now ps up down st =
      { st with systemState := { st.systemState with recoveryStartTime := some now } } := by
  unfold pairStep
  rw [faultStep_skip (fun hc => absurd (h1.symm.trans hc.1) (by decide)),
    recoveryStep_start h1 h2 h3 hf]

theorem pairStep_recovery_done {now t : Nat} {ps : PoleStates} {up down : String} {st : SweepState}
    (h1 : snapIncoming ps down = some "HIGH") (h2 : snapOutgoing ps up = some "HIGH")
    (h3 : segmentId up down ∈ st.systemState.isolatedSegments)
    (ht : st.systemState.recoveryStartTime = some t) (h0 : t ≠ 0)
    (hge : RECOVERY_STABLE_MS ≤ now - t) :
    pairStep now ps up down st = recoveryFired now up down st := by
  unfold pairStep
  rw [faultStep_skip (fun hc => absurd (h1.symm.trans hc.1) (by decide)),
    recoveryStep_done h1 h2 h3 ht h0 hge]

theorem pairStep_recovery_wait {now t : Nat} {ps : PoleStates} {up down : String} {st : SweepState}
    (h1 : snapIncoming ps down = some "HIGH") (h2 : snapOutgoing ps up = some "HIGH")
    (h3 : segmentId up down ∈ st.systemState.isolatedSegments)
    (ht : st.systemState.recoveryStartTime = some t) (h0 : t ≠ 0)
    (hlt : now - t < RECOVERY_STABLE_MS) :
    pairStep now ps up down st = st := by
  unfold pairStep
  rw [faultStep_skip (fun hc => absurd (h1.symm.trans hc.1) (by decide)),
    recoveryStep_wait h1 h2 h3 ht h0 hlt]

theorem pairStep_inert_isolated_not_high {now : Nat} {ps : PoleStates} {up down : String}
    {st : SweepState}
    (hmem : segmentId up down ∈ st.systemState.isolatedSegments)
    (hrev : snapIncoming ps down ≠ some "HIGH") :
    pairStep now ps up down st = st := by
  unfold pairStep
  rw [faultStep_skip (fun hc => hc.2.2 hmem), recoveryStep_skip (fun hc => hrev hc.1)]

/-- Fault phase of claim C1: with the mismatch on one adjacent pair, the grid
branches not taken and every other pair inactive, one run isolates exactly
that segment and queues exactly one DISABLE_OUTGOING_RELAY to the upstream pole. -/
theorem c1_fault_phase (up down : String) (ps : PoleStates) (ss : SystemState) (now : Nat)
    (hmem : (up, down) ∈ chainPairs)
    (hdn : snapIncoming ps down = some "LOW")
    (hup : snapOutgoing ps up = some "HIGH")
    (hni : segmentId up down ∉ ss.isolatedSegments)
    (hlow : snapIncoming ps "Pole1" ≠ some "LOW")
    (hgd : ss.status ≠ "GRID_DOWN")
    (hothers : ∀ u d, (u, d) ∈ chainPairs → (u, d) ≠ (up, down) →
      pairInactive ps ss.isolatedSegments u d) :
    (runFaultEngine now ps ss).systemState.isolatedSegments =
      ss.isolatedSegments ++ [segmentId up down] ∧
    (runFaultEngine now ps ss).systemState.status = "FAULT" ∧
    (runFaultEngine now ps ss).systemState.faultLocation = some (segmentId up down) ∧
    (runFaultEngine now ps ss).changed = true ∧
    (runFaultEngine now ps ss).queued =
      [(up, { action := "DISABLE_OUTGOING_RELAY",
              reason := "Fault detected between " ++ up ++ " and " ++ down })] := by
  rw [runFaultEngine_loop now ps ss hlow (fun hc => hgd hc.2), sweepPairs_unfold]
  simp only [chainPairs, List.mem_cons, List.not_mem_nil, or_false, Prod.mk.injEq] at hmem
  rcases hmem with ⟨rfl, rfl⟩ | ⟨rfl, rfl⟩ | ⟨rfl, rfl⟩
  · rw [pairStep_fault_fire hdn hup hni,
      pairStep_inactive "Pole2" "Pole3" (pairInactive_congr ((mem_append_singleton_ne (by decide)).symm)
        (hothers "Pole2" "Pole3" (by decide) (by decide))),
      pairStep_inactive "Pole3" "Pole4" (pairInactive_congr ((mem_append_singleton_ne (by decide)).symm)
        (hothers "Pole3" "Pole4" (by decide) (by decide)))]
    exact ⟨rfl, rfl, rfl, rfl, rfl⟩
  · rw [pairStep_inactive "Pole1" "Pole2" (hothers "Pole1" "Pole2" (by decide) (by decide)),
      pairStep_fault_fire hdn hup hni,
      pairStep_inactive "Pole3" "Pole4" (pairInactive_congr ((mem_append_singleton_ne (by decide)).symm)
        (hothers "Pole3" "Pole4" (by decide) (by decide)))]
    exact ⟨rfl, rfl, rfl, rfl, rfl⟩
  · rw [pairStep_inactive "Pole1" "Pole2" (hothers "Pole1" "Pole2" (by decide) (by decide)),
      pairStep_inactive "Pole2" "Pole3" (hothers "Pole2" "Pole3" (by decide) (by decide)),
      pairStep_fault_fire hdn hup hni]
    exact ⟨rfl, rfl, rfl, rfl, rfl⟩

/-- Recovery phase of claim C1: with the recovery condition on the isolated
pair, a fresh shared timer, quiescent other pairs and a second run at least
3000 ms later, the first run only starts the timer and the second run clears
the segment and queues exactly one ENABLE_OUTGOING_RELAY. -/
theorem c1_recovery_phase (up down : String) (ps : PoleStates) (ss : SystemState) (t0 t1 : Nat)
    (hmem : (up, down) ∈ chainPairs)
    (hdn : snapIncoming ps down = some "HIGH")
    (hup : snapOutgoing ps up = some "HIGH")
    (hiso : segmentId up down ∈ ss.isolatedSegments)
    (hrst : ss.recoveryStartTime = none)
    (ht0 : 0 < t0)
    (ht1 : t0 + RECOVERY_STABLE_MS ≤ t1)
    (hlow : snapIncoming ps "Pole1" ≠ some "LOW")
    (hgd : ss.status ≠ "GRID_DOWN")
    (hothers : ∀ u d, (u, d) ∈ chainPairs → (u, d) ≠ (up, down) →
      pairInactive ps ss.isolatedSegments u d) :
    (runFaultEngine t0 ps ss).systemState.isolatedSegments = ss.isolatedSegments ∧
    (runFaultEngine t0 ps ss).queued = [] ∧
    (runFaultEngine t0 ps ss).systemState.recoveryStartTime = some t0 ∧
    segmentId up down ∉
      (runFaultEngine t1 ps (runFaultEngine t0 ps ss).systemState).systemState.isolatedSegments ∧
    (runFaultEngine t1 ps (runFaultEngine t0 ps ss).systemState).queued =
      [(up, { action := "ENABLE_OUTGOING_RELAY",
              reason := "Fault cleared between " ++ up ++ " and " ++ down })] := by
  have hfalsy : falsyTime ss.recoveryStartTime := Or.inl hrst
  have h0ne : t0 ≠ 0 := Nat.pos_iff_ne_zero.mp ht0
  have hge : RECOVERY_STABLE_MS ≤ t1 - t0 := by omega
  simp only [chainPairs, List.mem_cons, List.not_mem_nil, or_false, Prod.mk.injEq] at hmem
  rcases hmem with ⟨rfl, rfl⟩ | ⟨rfl, rfl⟩ | ⟨rfl, rfl⟩
  · have hR1 : runFaultEngine t0 ps ss =
        { systemState := { ss with recoveryStartTime := some t0 },
          queued := [], events := [], changed := false } := by
      rw [runFaultEngine_loop t0 ps ss hlow (fun hc => hgd hc.2), sweepPairs_unfold,
        pairStep_recovery_start hdn hup hiso hfalsy,
        pairStep_inactive "Pole2" "Pole3" (hothers "Pole2" "Pole3" (by decide) (by decide)),
        pairStep_inactive "Pole3" "Pole4" (hothers "Pole3" "Pole4" (by decide) (by decide))]
      rfl
    rw [hR1, mkSweep_systemState,
      runFaultEngine_loop t1 ps { ss with recoveryStartTime := some t0 } hlow
        (fun hc => hgd hc.2),
      sweepPairs_unfold,
      pairStep_recovery_done hdn hup hiso rfl h0ne hge,
      pairStep_inactive "Pole2" "Pole3" (pairInactive_congr
        ((mem_isoAfterRemove_ne (by decide)).symm)
        (hothers "Pole2" "Pole3" (by decide) (by decide))),
      pairStep_inactive "Pole3" "Pole4" (pairInactive_congr
        ((mem_isoAfterRemove_ne (by decide)).symm)
        (hothers "Pole3" "Pole4" (by decide) (by decide)))]
    exact ⟨rfl, rfl, rfl, self_not_mem_isoAfterRemove _ _, rfl⟩
  · have hR1 : runFaultEngine t0 ps ss =
        { systemState := { ss with recoveryStartTime := some t0 },
          queued := [], events := [], changed := false } := by
      rw [runFaultEngine_loop t0 ps ss hlow (fun hc => hgd hc.2), sweepPairs_unfold,
        pairStep_inactive "Pole1" "Pole2" (hothers "Pole1" "Pole2" (by decide) (by decide)),
        pairStep_recovery_start hdn hup hiso hfalsy,
        pairStep_inactive "Pole3" "Pole4" (hothers "Pole3" "Pole4" (by decide) (by decide))]
      rfl
    rw [hR1, mkSweep_systemState,
      runFaultEngine_loop t1 ps { ss with recoveryStartTime := some t0 } hlow
        (fun hc => hgd hc.2),
      sweepPairs_unfold,
      pairStep_inactive "Pole1" "Pole2" (hothers "Pole1" "Pole2" (by decide) (by decide)),
      pairStep_recovery_done hdn hup hiso rfl h0ne hge,
      pairStep_inactive "Pole3" "Pole4" (pairInactive_congr
        ((mem_isoAfterRemove_ne (by decide)).symm)
        (hothers "Pole3" "Pole4" (by decide) (by decide)))]
    exact ⟨rfl, rfl, rfl, self_not_mem_isoAfterRemove _ _, rfl⟩
  · have hR1 : runFaultEngine t0 ps ss =
        { systemState := { ss with recoveryStartTime := some t0 },
          queued := [], events := [], changed := false } := by
      rw [runFaultEngine_loop t0 ps ss hlow (fun hc => hgd hc.2), sweepPairs_unfold,
        pairStep_inactive "Pole1" "Pole2" (hothers "Pole1" "Pole2" (by decide) (by decide)),
        pairStep_inactive "Pole2" "Pole3" (hothers "Pole2" "Pole3" (by decide) (by decide)),
        pairStep_recovery_start hdn hup hiso hfalsy]
      rfl
    rw [hR1, mkSweep_systemState,
      runFaultEngine_loop t1 ps { ss with recoveryStartTime := some t0 } hlow
        (fun hc => hgd hc.2),
      sweepPairs_unfold,
      pairStep_inactive "Pole1" "Pole2" (hothers "Pole1" "Pole2" (by decide) (by decide)),
      pairStep_inactive "Pole2" "Pole3" (hothers "Pole2" "Pole3" (by decide) (by decide)),
      pairStep_recovery_done hdn hup hiso rfl h0ne hge]
    exact ⟨rfl, rfl, rfl, self_not_mem_isoAfterRemove _ _, rfl⟩

/-- Boundary phase of claim C1: if the recovery condition has held for less
than 3000 ms when the last conditioned run happens and the condition then
reverts, the segment stays isolated through the reverted run as well. -/
theorem c1_boundary_phase (up down : String) (ps ps3 : PoleStates) (ss : SystemState)
    (t0 t2 t3 : Nat)
    (hmem : (up, down) ∈ chainPairs)
    (hdn : snapIncoming ps down = some "HIGH")
    (hup : snapOutgoing ps up = some "HIGH")
    (hiso : segmentId up down ∈ ss.isolatedSegments)
    (hrst : ss.recoveryStartTime = none)
    (ht0 : 0 < t0)
    (ht02 : t0 ≤ t2)
    (ht2 : t2 < t0 + RECOVERY_STABLE_MS)
    (hlow : snapIncoming ps "Pole1" ≠ some "LOW")
    (hgd : ss.status ≠ "GRID_DOWN")
    (hothers : ∀ u d, (u, d) ∈ chainPairs → (u, d) ≠ (up, down) →
      pairInactive ps ss.isolatedSegments u d)
    (hrev : snapIncoming ps3 down ≠ some "HIGH")
    (hlow3 : snapIncoming ps3 "Pole1" ≠ some "LOW")
    (hothers3 : ∀ u d, (u, d) ∈ chainPairs → (u, d) ≠ (up, down) →
      pairInactive ps3 ss.isolatedSegments u d) :
    segmentId up down ∈
      (runFaultEngine t2 ps (runFaultEngine t0 ps ss).systemState).systemState.isolatedSegments ∧
    (runFaultEngine t2 ps (runFaultEngine t0 ps ss).systemState).queued = [] ∧
    segmentId up down ∈
      (runFaultEngine t3 ps3 (runFaultEngine t2 ps
        (runFaultEngine t0 ps ss).systemState).systemState).systemState.isolatedSegments := by
  have hfalsy : falsyTime ss.recoveryStartTime := Or.inl hrst
  have h0ne : t0 ≠ 0 := Nat.pos_iff_ne_zero.mp ht0
  have hlt : t2 - t0 < RECOVERY_STABLE_MS := by omega
  simp only [chainPairs, List.mem_cons, List.not_mem_nil, or_false, Prod.mk.injEq] at hmem
  rcases hmem with ⟨rfl, rfl⟩ | ⟨rfl, rfl⟩ | ⟨rfl, rfl⟩
  · have hR1 : runFaultEngine t0 ps ss =
        { systemState := { ss with recoveryStartTime := some t0 },
          queued := [], events := [], changed := false } := by
      rw [runFaultEngine_loop t0 ps ss hlow (fun hc => hgd hc.2), sweepPairs_unfold,
        pairStep_recovery_start hdn hup hiso hfalsy,
        pairStep_inactive "Pole2" "Pole3" (hothers "Pole2" "Pole3" (by decide) (by decide)),
        pairStep_inactive "Pole3" "Pole4" (hothers "Pole3" "Pole4" (by decide) (by decide))]
      rfl
    have hR2 : runFaultEngine t2 ps ({ ss with recoveryStartTime := some t0 } : SystemState) =
        { systemState := { ss with recoveryStartTime := some t0 },
          queued := [], events := [], changed := false } := by
      rw [runFaultEngine_loop t2 ps { ss with recoveryStartTime := some t0 } hlow
          (fun hc => hgd hc.2),
        sweepPairs_unfold,
        pairStep_recovery_wait hdn hup hiso rfl h0ne hlt,
        pairStep_inactive "Pole2" "Pole3" (hothers "Pole2" "Pole3" (by decide) (by decide)),
        pairStep_inactive "Pole3" "Pole4" (hothers "Pole3" "Pole4" (by decide) (by decide))]
      rfl
    rw [hR1, mkSweep_systemState, hR2, mkSweep_systemState,
      runFaultEngine_loop t3 ps3 { ss with recoveryStartTime := some t0 } hlow3
        (fun hc => hgd hc.2),
      sweepPairs_unfold,
      pairStep_inert_isolated_not_high hiso hrev,
      pairStep_inactive "Pole2" "Pole3" (hothers3 "Pole2" "Pole3" (by decide) (by decide)),
      pairStep_inactive "Pole3" "Pole4" (hothers3 "Pole3" "Pole4" (by decide) (by decide))]
    exact ⟨hiso, rfl, hiso⟩
  · have hR1 : runFaultEngine t0 ps ss =
        { systemState := { ss with recoveryStartTime := some t0 },
          queued := [], events := [], changed := false } := by
      rw [runFaultEngine_loop t0 ps ss hlow (fun hc => hgd hc.2), sweepPairs_unfold,
        pairStep_inactive "Pole1" "Pole2" (hothers "Pole1" "Pole2" (by decide) (by decide)),
        pairStep_recovery_start hdn hup hiso hfalsy,
        pairStep_inactive "Pole3" "Pole4" (hothers "Pole3" "Pole4" (by decide) (by decide))]
      rfl
    have hR2 : runFaultEngine t2 ps ({ ss with recoveryStartTime := some t0 } : SystemState) =
        { systemState := { ss with recoveryStartTime := some t0 },
          queued := [], events := [], changed := false } := by
      rw [runFaultEngine_loop t2 ps { ss with recoveryStartTime := some t0 } hlow
          (fun hc => hgd hc.2),
        sweepPairs_unfold,
        pairStep_inactive "Pole1" "Pole2" (hothers "Pole1" "Pole2" (by decide) (by decide)),
        pairStep_recovery_wait hdn hup hiso rfl h0ne hlt,
        pairStep_inactive "Pole3" "Pole4" (hothers "Pole3" "Pole4" (by decide) (by decide))]
      rfl
    rw [hR1, mkSweep_systemState, hR2, mkSweep_systemState,
      runFaultEngine_loop t3 ps3 { ss with recoveryStartTime := some t0 } hlow3
        (fun hc => hgd hc.2),
      sweepPairs_unfold,
      pairStep_inactive "Pole1" "Pole2" (hothers3 "Pole1" "Pole2" (by decide) (by decide)),
      pairStep_inert_isolated_not_high hiso hrev,
      pairStep_inactive "Pole3" "Pole4" (hothers3 "Pole3" "Pole4" (by decide) (by decide))]
    exact ⟨hiso, rfl, hiso⟩
  · have hR1 : runFaultEngine t0 ps ss =
        { systemState := { ss with recoveryStartTime := some t0 },
          queued := [], events := [], changed := false } := by
      rw [runFaultEngine_loop t0 ps ss hlow (fun hc => hgd hc.2), sweepPairs_unfold,
        pairStep_inactive "Pole1" "Pole2" (hothers "Pole1" "Pole2" (by decide) (by decide)),
        pairStep_inactive "Pole2" "Pole3" (hothers "Pole2" "Pole3" (by decide) (by decide)),
        pairStep_recovery_start hdn hup hiso hfalsy]
      rfl
    have hR2 : runFaultEngine t2 ps ({ ss with recoveryStartTime := some t0 } : SystemState) =
        { systemState := { ss with recoveryStartTime := some t0 },
          queued := [], events := [], changed := false } := by
      rw [runFaultEngine_loop t2 ps { ss with recoveryStartTime := some t0 } hlow
          (fun hc => hgd hc.2),
        sweepPairs_unfold,
        pairStep_inactive "Pole1" "Pole2" (hothers "Pole1" "Pole2" (by decide) (by decide)),
        pairStep_inactive "Pole2" "Pole3" (hothers "Pole2" "Pole3" (by decide) (by decide)),
        pairStep_recovery_wait hdn hup hiso rfl h0ne hlt]
      rfl
    rw [hR1, mkSweep_systemState, hR2, mkSweep_systemState,
      runFaultEngine_loop t3 ps3 { ss with recoveryStartTime := some t0 } hlow3
        (fun hc => hgd hc.2),
      sweepPairs_unfold,
      pairStep_inactive "Pole1" "Pole2" (hothers3 "Pole1" "Pole2" (by decide) (by decide)),
      pairStep_inactive "Pole2" "Pole3" (hothers3 "Pole2" "Pole3" (by decide) (by decide)),
      pairStep_inert_isolated_not_high hiso hrev]
    exact ⟨hiso, rfl, hiso⟩

/-- Claim C1 (amended): the isolation round trip holds per adjacent pair under
the conditions the code actually imposes: the grid branches of the engine must
not preempt the sweep (first node not LOW, status not GRID_DOWN) and no other
pair may be firing or recovering at the same time, because the single shared
recoveryStartTime is reset by any concurrent fault.  Then (1) one run isolates
the mismatched segment, sets FAULT and faultLocation and queues exactly one
DISABLE_OUTGOING_RELAY to the upstream pole; (2) with both sides HIGH a run
starts the timer and a run at least 3000 ms later removes the segment and
queues exactly one ENABLE_OUTGOING_RELAY; (3) a conditioned run less than
3000 ms after the timer started removes nothing, and if the condition then
reverts the segment stays isolated. -/
theorem claim1_segment_isolation_round_trip :
    (∀ up down ps ss now, (up, down) ∈ chainPairs →
      snapIncoming ps down = some "LOW" →
      snapOutgoing ps up = some "HIGH" →
      segmentId up down ∉ ss.isolatedSegments →
      snapIncoming ps "Pole1" ≠ some "LOW" →
      ss.status ≠ "GRID_DOWN" →
      (∀ u d, (u, d) ∈ chainPairs → (u, d) ≠ (up, down) →
        pairInactive ps ss.isolatedSegments u d) →
      (runFaultEngine now ps ss).systemState.isolatedSegments =
        ss.isolatedSegments ++ [segmentId up down] ∧
      (runFaultEngine now ps ss).systemState.status = "FAULT" ∧
      (runFaultEngine now ps ss).systemState.faultLocation = some (segmentId up down) ∧
      (runFaultEngine now ps ss).changed = true ∧
      (runFaultEngine now ps ss).queued =
        [(up, { action := "DISABLE_OUTGOING_RELAY",
                reason := "Fault detected between " ++ up ++ " and " ++ down })]) ∧
    (∀ up down ps ss t0 t1, (up, down) ∈ chainPairs →
      snapIncoming ps down = some "HIGH" →
      snapOutgoing ps up = some "HIGH" →
      segmentId up down ∈ ss.isolatedSegments →
      ss.recoveryStartTime = none →
      0 < t0 →
      t0 + RECOVERY_STABLE_MS ≤ t1 →
      snapIncoming ps "Pole1" ≠ some "LOW" →
      ss.status ≠ "GRID_DOWN" →
      (∀ u d, (u, d) ∈ chainPairs → (u, d) ≠ (up, down) →
        pairInactive ps ss.isolatedSegments u d) →
      (runFaultEngine t0 ps ss).systemState.isolatedSegments = ss.isolatedSegments ∧
      (runFaultEngine t0 ps ss).queued = [] ∧
      (runFaultEngine t0 ps ss).systemState.recoveryStartTime = some t0 ∧
      segmentId up down ∉
        (runFaultEngine t1 ps
          (runFaultEngine t0 ps ss).systemState).systemState.isolatedSegments ∧
      (runFaultEngine t1 ps (runFaultEngine t0 ps ss).systemState).queued =
        [(up, { action := "ENABLE_OUTGOING_RELAY",
                reason := "Fault cleared between " ++ up ++ " and " ++ down })]) ∧
    (∀ up down ps ps3 ss t0 t2 t3, (up, down) ∈ chainPairs →
      snapIncoming ps down = some "HIGH" →
      snapOutgoing ps up = some "HIGH" →
      segmentId up down ∈ ss.isolatedSegments →
      ss.recoveryStartTime = none →
      0 < t0 →
      t0 ≤ t2 →
      t2 < t0 + RECOVERY_STABLE_MS →
      snapIncoming ps "Pole1" ≠ some "LOW" →
      ss.status ≠ "GRID_DOWN" →
      (∀ u d, (u, d) ∈ chainPairs → (u, d) ≠ (up, down) →
        pairInactive ps ss.isolatedSegments u d) →
      snapIncoming ps3 down ≠ some "HIGH" →
      snapIncoming ps3 "Pole1" ≠ some "LOW" →
      (∀ u d, (u, d) ∈ chainPairs → (u, d) ≠ (up, down) →
        pairInactive ps3 ss.isolatedSegments u d) →
      segmentId up down ∈
        (runFaultEngine t2 ps
          (runFaultEngine t0 ps ss).systemState).systemState.isolatedSegments ∧
      (runFaultEngine t2 ps (runFaultEngine t0 ps ss).systemState).queued = [] ∧
      segmentId up down ∈
        (runFaultEngine t3 ps3 (runFaultEngine t2 ps
          (runFaultEngine t0 ps ss).systemState).systemState).systemState.isolatedSegments) :=
  ⟨c1_fault_phase, c1_recovery_phase, c1_boundary_phase⟩

def c1xA1 : StateData := mkSnap "Pole1" "HIGH" "HIGH"

def c1xA2 : StateData := mkSnap "Pole2" "HIGH" "HIGH"

def c1xA3 : StateData := mkSnap "Pole3" "HIGH" "N/A"

/-- Interference store, phase a: everything HIGH, Pole2-Pole3 isolated. -/
def c1psA : PoleStates :=
  fun k => if k = "Pole1" then some c1xA1 else if k = "Pole2" then some c1xA2
    else if k = "Pole3" then some c1xA3 else none

def c1xB2 : StateData := mkSnap "Pole2" "LOW" "HIGH"

/-- Interference store, phase b: Pole2 incoming drops LOW, creating a
Pole1-Pole2 fault while Pole2-Pole3 is still recovering. -/
def c1psB : PoleStates :=
  fun k => if k = "Pole1" then some c1xA1 else if k = "Pole2" then some c1xB2
    else if k = "Pole3" then some c1xA3 else none

def c1ss : SystemState :=
  { initialSystemState CtxType.real with
    status := "FAULT", isolatedSegments := ["Pole2-Pole3"] }

/-- Counterexample to claim C1 as stated.  First scenario: the pair mismatch
(Pole1 outgoing HIGH, Pole2 incoming LOW) is present, yet a run isolates
nothing and queues nothing, because Pole1 incoming LOW takes the grid-down
early return.  Second scenario: the recovery condition on the isolated
Pole2-Pole3 segment holds at runs at 1000 ms, 2000 ms and 4000 ms, spanning
3000 ms, yet the 4000 ms run does not un-isolate it and queues no ENABLE,
because the Pole1-Pole2 fault at 2000 ms reset the shared recovery timer. -/
theorem claim1_counterexample :
    (snapIncoming c2ps "Pole2" = some "LOW" ∧
     snapOutgoing c2ps "Pole1" = some "HIGH" ∧
     (runFaultEngine 10 c2ps (initialSystemState CtxType.real)).systemState.isolatedSegments
       = [] ∧
     (runFaultEngine 10 c2ps (initialSystemState CtxType.real)).queued = []) ∧
    (snapIncoming c1psA "Pole3" = some "HIGH" ∧ snapOutgoing c1psA "Pole2" = some "HIGH" ∧
     snapIncoming c1psB "Pole3" = some "HIGH" ∧ snapOutgoing c1psB "Pole2" = some "HIGH" ∧
     "Pole2-Pole3" ∈
       (runFaultEngine 4000 c1psB (runFaultEngine 2000 c1psB
         (runFaultEngine 1000 c1psA c1ss).systemState).systemState).systemState.isolatedSegments ∧
     (runFaultEngine 4000 c1psB (runFaultEngine 2000 c1psB
         (runFaultEngine 1000 c1psA c1ss).systemState).systemState).queued = []) := by
  decide

def c1wA : PoleStates :=
  fun k => if k = "Pole1" then some (mkSnap "Pole1" "HIGH" "HIGH")
    else if k = "Pole2" then some (mkSnap "Pole2" "LOW" "UNKNOWN") else none

def c1wB : PoleStates :=
  fun k => if k = "Pole1" then some (mkSnap "Pole1" "HIGH" "LOW")
    else if k = "Pole2" then some (mkSnap "Pole2" "HIGH" "HIGH")
    else if k = "Pole3" then some (mkSnap "Pole3" "HIGH" "N/A") else none

def c1wC : PoleStates :=
  fun k => if k = "Pole1" then some (mkSnap "Pole1" "HIGH" "LOW")
    else if k = "Pole2" then some (mkSnap "Pole2" "HIGH" "HIGH")
    else if k = "Pole3" then some (mkSnap "Pole3" "LOW" "N/A") else none

def c1wss : SystemState :=
  { initialSystemState CtxType.real with
    status := "FAULT", isolatedSegments := ["Pole2-Pole3"] }

theorem claim1_witness :
    ((runFaultEngine 10 c1wA (initialSystemState CtxType.real)).systemState.isolatedSegments
       = [] ++ [segmentId "Pole1" "Pole2"] ∧
     (runFaultEngine 10 c1wA (initialSystemState CtxType.real)).systemState.status = "FAULT" ∧
     (runFaultEngine 10 c1wA (initialSystemState CtxType.real)).systemState.faultLocation =
       some (segmentId "Pole1" "Pole2") ∧
     (runFaultEngine 10 c1wA (initialSystemState CtxType.real)).changed = true ∧
     (runFaultEngine 10 c1wA (initialSystemState CtxType.real)).queued =
       [("Pole1", { action := "DISABLE_OUTGOING_RELAY",
                    reason := "Fault detected between " ++ "Pole1" ++ " and " ++ "Pole2" })]) ∧
    ((runFaultEngine 1000 c1wB c1wss).systemState.isolatedSegments =
       c1wss.isolatedSegments ∧
     (runFaultEngine 1000 c1wB c1wss).queued = [] ∧
     (runFaultEngine 1000 c1wB c1wss).systemState.recoveryStartTime = some 1000 ∧
     segmentId "Pole2" "Pole3" ∉
       (runFaultEngine 4000 c1wB
         (runFaultEngine 1000 c1wB c1wss).systemState).systemState.isolatedSegments ∧
     (runFaultEngine 4000 c1wB (runFaultEngine 1000 c1wB c1wss).systemState).queued =
       [("Pole2", { action := "ENABLE_OUTGOING_RELAY",
                    reason := "Fault cleared between " ++ "Pole2" ++ " and " ++ "Pole3" })]) ∧
    (segmentId "Pole2" "Pole3" ∈
       (runFaultEngine 3999 c1wB
         (runFaultEngine 1000 c1wB c1wss).systemState).systemState.isolatedSegments ∧
     (runFaultEngine 3999 c1wB
       (runFaultEngine 1000 c1wB c1wss).systemState).queued = [] ∧
     segmentId "Pole2" "Pole3" ∈
       (runFaultEngine 5000 c1wC (runFaultEngine 3999 c1wB
         (runFaultEngine 1000 c1wB c1wss).systemState).systemState).systemState.isolatedSegments) := by
  have hoA : ∀ u d, (u, d) ∈ chainPairs → (u, d) ≠ ("Pole1", "Pole2") →
      pairInactive c1wA (initialSystemState CtxType.real).isolatedSegments u d := by
    intro u d hm hne
    simp only [chainPairs, List.mem_cons, List.not_mem_nil, or_false, Prod.mk.injEq] at hm
    rcases hm with ⟨rfl, rfl⟩ | ⟨rfl, rfl⟩ | ⟨rfl, rfl⟩
    · exact absurd rfl hne
    · decide
    · decide
  have hoB : ∀ u d, (u, d) ∈ chainPairs → (u, d) ≠ ("Pole2", "Pole3") →
      pairInactive c1wB c1wss.isolatedSegments u d := by
    intro u d hm hne
    simp only [chainPairs, List.mem_cons, List.not_mem_nil, or_false, Prod.mk.injEq] at hm
    rcases hm with ⟨rfl, rfl⟩ | ⟨rfl, rfl⟩ | ⟨rfl, rfl⟩
    · decide
    · exact absurd rfl hne
    · decide
  have hoC : ∀ u d, (u, d) ∈ chainPairs → (u, d) ≠ ("Pole2", "Pole3") →
      pairInactive c1wC c1wss.isolatedSegments u d := by
    intro u d hm hne
    simp only [chainPairs, List.mem_cons, List.not_mem_nil, or_false, Prod.mk.injEq] at hm
    rcases hm with ⟨rfl, rfl⟩ | ⟨rfl, rfl⟩ | ⟨rfl, rfl⟩
    · decide
    · exact absurd rfl hne
    · decide
  refine ⟨?_, ?_, ?_⟩
  · exact claim1_segment_isolation_round_trip.1 "Pole1" "Pole2" c1wA
      (initialSystemState CtxType.real) 10 (by decide) (by decide) (by decide)
      (by decide) (by decide) (by decide) hoA
  · exact claim1_segment_isolation_round_trip.2.1 "Pole2" "Pole3" c1wB c1wss 1000 4000
      (by decide) (by decide) (by decide) (by decide) (by decide) (by decide) (by decide)
      (by decide) (by decide) hoB
  · exact claim1_segment_isolation_round_trip.2.2 "Pole2" "Pole3" c1wB c1wC c1wss
      1000 3999 5000 (by decide) (by decide) (by decide) (by decide) (by decide)
      (by decide) (by decide) (by decide) (by decide) (by decide) hoB (by decide)
      (by decide) hoC

theorem pairStep_inert_isolated_no_recovery {now : Nat} {ps : PoleStates} {up down : String}
    {st : SweepState}
    (hiso : segmentId up down ∈ st.systemState.isolatedSegments)
    (hnc : ¬(snapIncoming ps down = some "HIGH" ∧ snapOutgoing ps up = some "HIGH")) :
    pairStep now ps up down st = st := by
  unfold pairStep
  rw [faultStep_skip (fun hc => hc.2.2 hiso), recoveryStep_skip (fun hc => hnc ⟨hc.1, hc.2.1⟩)]

/-- When every pair other than one is inactive, the sweep reduces to the
loop body of that one pair alone. -/
theorem sweep_single_pair (up down : String) (ps : PoleStates) (ss : SystemState) (now : Nat)
    (hmem : (up, down) ∈ chainPairs)
    (hothers : ∀ u d, (u, d) ∈ chainPairs → (u, d) ≠ (up, down) →
      pairInactive ps ss.isolatedSegments u d) :
    sweepPairs now ps (initSweep ss) = pairStep now ps up down (initSweep ss) := by
  rw [sweepPairs_unfold]
  simp only [chainPairs, List.mem_cons, List.not_mem_nil, or_false, Prod.mk.injEq] at hmem
  rcases hmem with ⟨rfl, rfl⟩ | ⟨rfl, rfl⟩ | ⟨rfl, rfl⟩
  · rw [pairStep_inactive "Pole2" "Pole3" (pairInactive_congr
        ((pairStep_mem_ne (by decide)).symm)
        (hothers "Pole2" "Pole3" (by decide) (by decide))),
      pairStep_inactive "Pole3" "Pole4" (pairInactive_congr
        ((pairStep_mem_ne (by decide)).symm)
        (hothers "Pole3" "Pole4" (by decide) (by decide)))]
  · rw [pairStep_inactive "Pole1" "Pole2" (hothers "Pole1" "Pole2" (by decide) (by decide)),
      pairStep_inactive "Pole3" "Pole4" (pairInactive_congr
        ((pairStep_mem_ne (by decide)).symm)
        (hothers "Pole3" "Pole4" (by decide) (by decide)))]
  · rw [pairStep_inactive "Pole1" "Pole2" (hothers "Pole1" "Pole2" (by decide) (by decide)),
      pairStep_inactive "Pole2" "Pole3" (hothers "Pole2" "Pole3" (by decide) (by decide))]

/-- Removal characterization behind claim C4: on an isolated pair with the
grid branches excluded and the other pairs inactive, one run removes the
segment exactly when the recovery condition holds at that run and the shared
recoveryStartTime was already set, nonzero, at least 3000 ms before now. -/
theorem c4_removal_iff (up down : String) (ps : PoleStates) (ss : SystemState) (now : Nat)
    (hmem : (up, down) ∈ chainPairs)
    (hiso : segmentId up down ∈ ss.isolatedSegments)
    (hlow : snapIncoming ps "Pole1" ≠ some "LOW")
    (hgd : ss.status ≠ "GRID_DOWN")
    (hothers : ∀ u d, (u, d) ∈ chainPairs → (u, d) ≠ (up, down) →
      pairInactive ps ss.isolatedSegments u d) :
    (segmentId up down ∉ (runFaultEngine now ps ss).systemState.isolatedSegments ↔
      (snapIncoming ps down = some "HIGH" ∧ snapOutgoing ps up = some "HIGH" ∧
       ∃ t, ss.recoveryStartTime = some t ∧ t ≠ 0 ∧ RECOVERY_STABLE_MS ≤ now - t)) ∧
    (segmentId up down ∉ (runFaultEngine now ps ss).systemState.isolatedSegments →
      (runFaultEngine now ps ss).queued =
        [(up, { action := "ENABLE_OUTGOING_RELAY",
                reason := "Fault cleared between " ++ up ++ " and " ++ down })]) ∧
    (segmentId up down ∈ (runFaultEngine now ps ss).systemState.isolatedSegments →
      (runFaultEngine now ps ss).queued = [] ∧
      (runFaultEngine now ps ss).systemState.isolatedSegments = ss.isolatedSegments) := by
  rw [runFaultEngine_loop now ps ss hlow (fun hc => hgd hc.2),
    sweep_single_pair up down ps ss now hmem hothers]
  by_cases hcond : snapIncoming ps down = some "HIGH" ∧ snapOutgoing ps up = some "HIGH"
  · by_cases hf : falsyTime ss.recoveryStartTime
    · rw [pairStep_recovery_start hcond.1 hcond.2 hiso hf]
      refine ⟨⟨fun hnot => absurd hiso hnot, ?_⟩, fun hnot => absurd hiso hnot,
        fun _ => ⟨rfl, rfl⟩⟩
      rintro ⟨-, -, t, hts, ht0, -⟩
      rcases hf with hf | hf
      · rw [hf] at hts; exact Option.noConfusion hts
      · rw [hf] at hts; exact absurd (Option.some.inj hts).symm ht0
    · obtain ⟨t, ht, h0⟩ := exists_some_of_not_falsy hf
      by_cases hge : RECOVERY_STABLE_MS ≤ now - t
      · rw [pairStep_recovery_done hcond.1 hcond.2 hiso ht h0 hge]
        refine ⟨⟨fun _ => ⟨hcond.1, hcond.2, t, ht, h0, hge⟩,
          fun _ => self_not_mem_isoAfterRemove _ _⟩, fun _ => rfl, fun hmem2 => ?_⟩
        exact absurd hmem2 (self_not_mem_isoAfterRemove _ _)
      · rw [pairStep_recovery_wait hcond.1 hcond.2 hiso ht h0 (Nat.not_le.mp hge)]
        refine ⟨⟨fun hnot => absurd hiso hnot, ?_⟩, fun hnot => absurd hiso hnot,
          fun _ => ⟨rfl, rfl⟩⟩
        rintro ⟨-, -, t2, hts2, -, hge2⟩
        rw [ht] at hts2
        exact absurd ((Option.some.inj hts2) ▸ hge2) hge
  · rw [pairStep_inert_isolated_no_recovery hiso hcond]
    exact ⟨⟨fun hnot => absurd hiso hnot, fun hc => absurd ⟨hc.1, hc.2.1⟩ hcond⟩,
      fun hnot => absurd hiso hnot, fun _ => ⟨rfl, rfl⟩⟩

/-- No-restart half behind claim C4: a run at which the recovery condition
does not hold leaves recoveryStartTime and the isolated set untouched, so the
measurement keeps counting from the original start. -/
theorem c4_no_restart (up down : String) (ps : PoleStates) (ss : SystemState) (now : Nat)
    (hmem : (up, down) ∈ chainPairs)
    (hiso : segmentId up down ∈ ss.isolatedSegments)
    (hlow : snapIncoming ps "Pole1" ≠ some "LOW")
    (hgd : ss.status ≠ "GRID_DOWN")
    (hothers : ∀ u d, (u, d) ∈ chainPairs → (u, d) ≠ (up, down) →
      pairInactive ps ss.isolatedSegments u d)
    (hnc : ¬(snapIncoming ps down = some "HIGH" ∧ snapOutgoing ps up = some "HIGH")) :
    (runFaultEngine now ps ss).systemState.recoveryStartTime = ss.recoveryStartTime ∧
    (runFaultEngine now ps ss).systemState.isolatedSegments = ss.isolatedSegments ∧
    (runFaultEngine now ps ss).queued = [] := by
  rw [runFaultEngine_loop now ps ss hlow (fun hc => hgd hc.2),
    sweep_single_pair up down ps ss now hmem hothers,
    pairStep_inert_isolated_no_recovery hiso hnc]
  exact ⟨rfl, rfl, rfl⟩

/-- Claim C4 (amended): on an isolated pair with the grid branches excluded
and the other pairs inactive, the engine removes the segment and queues
ENABLE_OUTGOING_RELAY exactly when the recovery condition holds at a run at
least 3000 ms after the run that set recoveryStartTime; a run at which the
condition does not hold leaves recoveryStartTime unchanged, so the interval
does not restart the measurement - elapsed time keeps counting from the
original start (recoveryStartTime is only reset by a fault detection or a
grid transition). -/
theorem claim4_recovery_timing :
    (∀ up down ps ss now, (up, down) ∈ chainPairs →
      segmentId up down ∈ ss.isolatedSegments →
      snapIncoming ps "Pole1" ≠ some "LOW" →
      ss.status ≠ "GRID_DOWN" →
      (∀ u d, (u, d) ∈ chainPairs → (u, d) ≠ (up, down) →
        pairInactive ps ss.isolatedSegments u d) →
      (segmentId up down ∉ (runFaultEngine now ps ss).systemState.isolatedSegments ↔
        (snapIncoming ps down = some "HIGH" ∧ snapOutgoing ps up = some "HIGH" ∧
         ∃ t, ss.recoveryStartTime = some t ∧ t ≠ 0 ∧ RECOVERY_STABLE_MS ≤ now - t)) ∧
      (segmentId up down ∉ (runFaultEngine now ps ss).systemState.isolatedSegments →
        (runFaultEngine now ps ss).queued =
          [(up, { action := "ENABLE_OUTGOING_RELAY",
                  reason := "Fault cleared between " ++ up ++ " and " ++ down })]) ∧
      (segmentId up down ∈ (runFaultEngine now ps ss).systemState.isolatedSegments →
        (runFaultEngine now ps ss).queued = [] ∧
        (runFaultEngine now ps ss).systemState.isolatedSegments = ss.isolatedSegments)) ∧
    (∀ up down ps ss now, (up, down) ∈ chainPairs →
      segmentId up down ∈ ss.isolatedSegments →
      snapIncoming ps "Pole1" ≠ some "LOW" →
      ss.status ≠ "GRID_DOWN" →
      (∀ u d, (u, d) ∈ chainPairs → (u, d) ≠ (up, down) →
        pairInactive ps ss.isolatedSegments u d) →
      ¬(snapIncoming ps down = some "HIGH" ∧ snapOutgoing ps up = some "HIGH") →
      (runFaultEngine now ps ss).systemState.recoveryStartTime = ss.recoveryStartTime ∧
      (runFaultEngine now ps ss).systemState.isolatedSegments = ss.isolatedSegments ∧
      (runFaultEngine now ps ss).queued = []) :=
  ⟨fun up down ps ss now hmem hiso hlow hgd hothers =>
    c4_removal_iff up down ps ss now hmem hiso hlow hgd hothers,
   fun up down ps ss now hmem hiso hlow hgd hothers hnc =>
    c4_no_restart up down ps ss now hmem hiso hlow hgd hothers hnc⟩

def c4g2 : StateData := mkSnap "Pole2" "HIGH" "HIGH"

def c4g3 : StateData := mkSnap "Pole3" "HIGH" "N/A"

def c4b2 : StateData := mkSnap "Pole2" "HIGH" "LOW"

/-- Store while the recovery condition holds on Pole2-Pole3. -/
def c4psGood : PoleStates :=
  fun k => if k = "Pole2" then some c4g2 else if k = "Pole3" then some c4g3 else none

/-- Store while the condition is broken: Pole2 outgoing reads LOW. -/
def c4psBad : PoleStates :=
  fun k => if k = "Pole2" then some c4b2 else if k = "Pole3" then some c4g3 else none

def c4ss : SystemState :=
  { initialSystemState CtxType.real with
    status := "FAULT", isolatedSegments := ["Pole2-Pole3"] }

/-- Counterexample to claim C4 as stated: the timer starts at 1000 ms, the
recovery condition is broken at the 2000 ms run (Pole2 outgoing LOW), yet
recoveryStartTime is not reset, and the 4000 ms run - at which the condition
has only just resumed - already removes the segment and queues the ENABLE:
the code counts from the original start instead of restarting after the
interruption. -/
theorem claim4_counterexample :
    snapOutgoing c4psBad "Pole2" = some "LOW" ∧
    (runFaultEngine 1000 c4psGood c4ss).systemState.recoveryStartTime = some 1000 ∧
    (runFaultEngine 2000 c4psBad
      (runFaultEngine 1000 c4psGood c4ss).systemState).systemState.recoveryStartTime
      = some 1000 ∧
    "Pole2-Pole3" ∉
      (runFaultEngine 4000 c4psGood (runFaultEngine 2000 c4psBad
        (runFaultEngine 1000 c4psGood c4ss).systemState).systemState).systemState.isolatedSegments ∧
    (runFaultEngine 4000 c4psGood (runFaultEngine 2000 c4psBad
        (runFaultEngine 1000 c4psGood c4ss).systemState).systemState).queued =
      [("Pole2", { action := "ENABLE_OUTGOING_RELAY",
                   reason := "Fault cleared between " ++ "Pole2" ++ " and " ++ "Pole3" })] := by
  decide

def c4wss : SystemState :=
  { initialSystemState CtxType.real with
    status := "FAULT", isolatedSegments := ["Pole2-Pole3"], recoveryStartTime := some 500 }

theorem claim4_witness :
    ((segmentId "Pole2" "Pole3" ∉
        (runFaultEngine 4000 c1wB c4wss).systemState.isolatedSegments ↔
      (snapIncoming c1wB "Pole3" = some "HIGH" ∧ snapOutgoing c1wB "Pole2" = some "HIGH" ∧
       ∃ t, c4wss.recoveryStartTime = some t ∧ t ≠ 0 ∧
         RECOVERY_STABLE_MS ≤ 4000 - t)) ∧
     (segmentId "Pole2" "Pole3" ∉
        (runFaultEngine 4000 c1wB c4wss).systemState.isolatedSegments →
      (runFaultEngine 4000 c1wB c4wss).queued =
        [("Pole2", { action := "ENABLE_OUTGOING_RELAY",
                     reason := "Fault cleared between " ++ "Pole2" ++ " and " ++ "Pole3" })]) ∧
     (segmentId "Pole2" "Pole3" ∈
        (runFaultEngine 4000 c1wB c4wss).systemState.isolatedSegments →
      (runFaultEngine 4000 c1wB c4wss).queued = [] ∧
      (runFaultEngine 4000 c1wB c4wss).systemState.isolatedSegments =
        c4wss.isolatedSegments)) ∧
    ((runFaultEngine 2000 c1wC c4wss).systemState.recoveryStartTime =
       c4wss.recoveryStartTime ∧
     (runFaultEngine 2000 c1wC c4wss).systemState.isolatedSegments =
       c4wss.isolatedSegments ∧
     (runFaultEngine 2000 c1wC c4wss).queued = []) := by
  have hoB : ∀ u d, (u, d) ∈ chainPairs → (u, d) ≠ ("Pole2", "Pole3") →
      pairInactive c1wB c4wss.isolatedSegments u d := by
    intro u d hm hne
    simp only [chainPairs, List.mem_cons, List.not_mem_nil, or_false, Prod.mk.injEq] at hm
    rcases hm with ⟨rfl, rfl⟩ | ⟨rfl, rfl⟩ | ⟨rfl, rfl⟩
    · decide
    · exact absurd rfl hne
    · decide
  have hoC : ∀ u d, (u, d) ∈ chainPairs → (u, d) ≠ ("Pole2", "Pole3") →
      pairInactive c1wC c4wss.isolatedSegments u d := by
    intro u d hm hne
    simp only [chainPairs, List.mem_cons, List.not_mem_nil, or_false, Prod.mk.injEq] at hm
    rcases hm with ⟨rfl, rfl⟩ | ⟨rfl, rfl⟩ | ⟨rfl, rfl⟩
    · decide
    · exact absurd rfl hne
    · decide
  exact ⟨claim4_recovery_timing.1 "Pole2" "Pole3" c1wB c4wss 4000 (by decide) (by decide)
      (by decide) (by decide) hoB,
    claim4_recovery_timing.2 "Pole2" "Pole3" c1wC c4wss 2000 (by decide) (by decide)
      (by decide) (by decide) hoC (by decide)⟩

/-! ## Firmware tick lemmas -/

theorem enableRelay_currentState (pn : Nat) (b e : Bool) (s : NodeSM) :
    (enableRelay pn b e s).currentState = s.currentState := by
  unfold enableRelay
  split_ifs <;> rfl

theorem enableRelay_faultStartTime (pn : Nat) (b e : Bool) (s : NodeSM) :
    (enableRelay pn b e s).faultStartTime = s.faultStartTime := by
  unfold enableRelay
  split_ifs <;> rfl

theorem overTrip_currentState (pn : Nat) (s : NodeSM) :
    (overTrip pn s).currentState = s.currentState := by
  unfold overTrip
  split_ifs with h h4
  · show (enableRelay pn true false { s with faultFlag := true }).currentState = s.currentState
    rw [enableRelay_currentState]
  · show (enableRelay pn false false (enableRelay pn true false
      { s with faultFlag := true })).currentState = s.currentState
    rw [enableRelay_currentState, enableRelay_currentState]
  · rfl

theorem overTrip_faultStartTime (pn : Nat) (s : NodeSM) :
    (overTrip pn s).faultStartTime = s.faultStartTime := by
  unfold overTrip
  split_ifs with h h4
  · show (enableRelay pn true false { s with faultFlag := true }).faultStartTime = s.faultStartTime
    rw [enableRelay_faultStartTime]
  · show (enableRelay pn false false (enableRelay pn true false
      { s with faultFlag := true })).faultStartTime = s.faultStartTime
    rw [enableRelay_faultStartTime, enableRelay_faultStartTime]
  · rfl

theorem tick1_low_first (now : Nat) (inp : SensorInput) {s : NodeSM}
    (hst : s.currentState = NState.NORMAL) (hlow : inp.incomingHigh = false)
    (hfst : s.faultStartTime = 0) :
    (tick 1 now inp s).currentState = NState.NORMAL ∧
    (tick 1 now inp s).faultStartTime = now ∧
    (tick 1 now inp s).relayInEnabled = s.relayInEnabled ∧
    (tick 1 now inp s).relayOutEnabled = s.relayOutEnabled := by
  simp only [tick, runStateMachine, readSensors, hst, hlow, handleNormalState]
  simp [hfst, hlow, Nat.sub_self, DEBOUNCE_MS]

theorem tick1_low_wait (now : Nat) (inp : SensorInput) {s : NodeSM}
    (hst : s.currentState = NState.NORMAL) (hlow : inp.incomingHigh = false)
    (hfst : s.faultStartTime ≠ 0) (hdeb : ¬ DEBOUNCE_MS ≤ now - s.faultStartTime) :
    (tick 1 now inp s).currentState = NState.NORMAL ∧
    (tick 1 now inp s).faultStartTime = s.faultStartTime ∧
    (tick 1 now inp s).relayInEnabled = s.relayInEnabled ∧
    (tick 1 now inp s).relayOutEnabled = s.relayOutEnabled := by
  simp only [tick, runStateMachine, readSensors, hst, hlow, handleNormalState]
  simp [hfst, hlow, hdeb]

theorem tick1_low_trigger (now : Nat) (inp : SensorInput) {s : NodeSM}
    (hst : s.currentState = NState.NORMAL) (hlow : inp.incomingHigh = false)
    (hfst : s.faultStartTime ≠ 0) (hdeb : DEBOUNCE_MS ≤ now - s.faultStartTime) :
    (tick 1 now inp s).currentState = NState.GRID_DOWN ∧
    (tick 1 now inp s).relayInEnabled = s.relayInEnabled ∧
    (tick 1 now inp s).relayOutEnabled = s.relayOutEnabled := by
  simp only [tick, runStateMachine, readSensors, hst, hlow, handleNormalState]
  simp [hfst, hlow, hdeb]

theorem tick1_gridDown_low (now : Nat) (inp : SensorInput) {s : NodeSM}
    (hst : s.currentState = NState.GRID_DOWN) (hlow : inp.incomingHigh = false) :
    (tick 1 now inp s).currentState = NState.GRID_DOWN ∧
    (tick 1 now inp s).faultStartTime = s.faultStartTime ∧
    (tick 1 now inp s).relayInEnabled = s.relayInEnabled ∧
    (tick 1 now inp s).relayOutEnabled = s.relayOutEnabled := by
  simp only [tick, runStateMachine, readSensors, hst, hlow, handleGridDownState]
  simp [hlow]

theorem tick1_normal_high (now : Nat) (inp : SensorInput) {s : NodeSM}
    (hst : s.currentState = NState.NORMAL) (hhigh : inp.incomingHigh = true) :
    (tick 1 now inp s).currentState = NState.NORMAL ∧
    (tick 1 now inp s).faultStartTime = 0 := by
  simp only [tick, runStateMachine, readSensors, hst, hhigh, handleNormalState]
  simp [hhigh, overTrip_currentState, overTrip_faultStartTime]

theorem runTicks_nil (pn : Nat) (s : NodeSM) : runTicks pn [] s = s := rfl

theorem runTicks_cons (pn : Nat) (p : Nat × SensorInput) (L : List (Nat × SensorInput))
    (s : NodeSM) : runTicks pn (p :: L) s = runTicks pn L (tick pn p.1 p.2 s) := rfl

theorem runTicks_append (pn : Nat) (L1 L2 : List (Nat × SensorInput)) (s : NodeSM) :
    runTicks pn (L1 ++ L2) s = runTicks pn L2 (runTicks pn L1 s) := by
  unfold runTicks
  exact List.foldl_append _ _ _ _

/-- A run of first-node ticks with incoming continuously false, starting from
NORMAL with the debounce timer latched at t0 (or already GRID_DOWN): relays
are never touched, a tick at or after t0 plus the debounce reaches GRID_DOWN,
and while every tick stays below that bound the node stays NORMAL with the
timer still at t0. -/
theorem pole1_low_run (t0 : Nat) (ht0 : t0 ≠ 0) :
    ∀ (L : List (Nat × SensorInput)) (s : NodeSM),
    (∀ p ∈ L, p.2.incomingHigh = false) →
    ((s.currentState = NState.NORMAL ∧ s.faultStartTime = t0) ∨
      s.currentState = NState.GRID_DOWN) →
    ((runTicks 1 L s).relayInEnabled = s.relayInEnabled ∧
     (runTicks 1 L s).relayOutEnabled = s.relayOutEnabled) ∧
    (((∃ p ∈ L, t0 + DEBOUNCE_MS ≤ p.1) ∨ s.currentState = NState.GRID_DOWN) →
      (runTicks 1 L s).currentState = NState.GRID_DOWN) ∧
    ((∀ p ∈ L, p.1 < t0 + DEBOUNCE_MS) → s.currentState = NState.NORMAL →
      s.faultStartTime = t0 →
      (runTicks 1 L s).currentState = NState.NORMAL ∧
      (runTicks 1 L s).faultStartTime = t0) := by
  intro L
  induction L with
  | nil =>
    intro s _ hinv
    refine ⟨⟨rfl, rfl⟩, ?_, fun _ h1 h2 => ⟨h1, h2⟩⟩
    rintro (⟨p, hp, -⟩ | hgd)
    · exact absurd hp (List.not_mem_nil p)
    · exact hgd
  | cons hd tl ih =>
    intro s hlow hinv
    have hlowhd : hd.2.incomingHigh = false := hlow hd (List.mem_cons_self hd tl)
    have hlowtl : ∀ p ∈ tl, p.2.incomingHigh = false :=
      fun p hp => hlow p (List.mem_cons_of_mem hd hp)
    have hD : 0 < DEBOUNCE_MS := by decide
    rw [runTicks_cons]
    rcases hinv with ⟨hst, hfst⟩ | hgd
    · by_cases hdeb : DEBOUNCE_MS ≤ hd.1 - t0
      · have htr := tick1_low_trigger hd.1 hd.2 hst hlowhd (hfst ▸ ht0) (hfst ▸ hdeb)
        obtain ⟨hrel, hGD, hNM⟩ := ih (tick 1 hd.1 hd.2 s) hlowtl (Or.inr htr.1)
        refine ⟨⟨hrel.1.trans htr.2.1, hrel.2.trans htr.2.2⟩,
          fun _ => hGD (Or.inr htr.1), fun hbnd _ _ => ?_⟩
        have := hbnd hd (List.mem_cons_self hd tl)
        omega
      · have hwt := tick1_low_wait hd.1 hd.2 hst hlowhd (hfst ▸ ht0) (hfst ▸ hdeb)
        obtain ⟨hrel, hGD, hNM⟩ := ih (tick 1 hd.1 hd.2 s) hlowtl
          (Or.inl ⟨hwt.1, hwt.2.1.trans hfst⟩)
        refine ⟨⟨hrel.1.trans hwt.2.2.1, hrel.2.trans hwt.2.2.2⟩, ?_, ?_⟩
        · rintro (⟨p, hp, hple⟩ | hsgd)
          · rcases List.mem_cons.mp hp with rfl | hptl
            · exact absurd hple (by omega)
            · exact hGD (Or.inl ⟨p, hptl, hple⟩)
          · rw [hst] at hsgd
            exact absurd hsgd (by decide)
        · intro hbnd _ _
          exact hNM (fun p hp => hbnd p (List.mem_cons_of_mem hd hp)) hwt.1
            (hwt.2.1.trans hfst)
    · have hg := tick1_gridDown_low hd.1 hd.2 hgd hlowhd
      obtain ⟨hrel, hGD, hNM⟩ := ih (tick 1 hd.1 hd.2 s) hlowtl (Or.inr hg.1)
      refine ⟨⟨hrel.1.trans hg.2.2.1, hrel.2.trans hg.2.2.2⟩,
        fun _ => hGD (Or.inr hg.1), fun _ hn _ => ?_⟩
      rw [hn] at hgd
      exact absurd hgd (by decide)

/-- Claim C5: for the first node in NORMAL, incoming continuously false with
a tick at least 500 ms after the first false tick reaches GRID_DOWN with no
relay change; false for at most 499 ms and then true leaves the node NORMAL
with the debounce timer reset to zero. -/
theorem claim5_grid_down_debounce :
    (∀ (s : NodeSM) (t0 : Nat) (i0 : SensorInput) (rest : List (Nat × SensorInput)),
      s.currentState = NState.NORMAL → s.faultStartTime = 0 →
      0 < t0 → i0.incomingHigh = false →
      (∀ p ∈ rest, p.2.incomingHigh = false) →
      (∃ p ∈ rest, t0 + DEBOUNCE_MS ≤ p.1) →
      (runTicks 1 ((t0, i0) :: rest) s).currentState = NState.GRID_DOWN ∧
      (runTicks 1 ((t0, i0) :: rest) s).relayInEnabled = s.relayInEnabled ∧
      (runTicks 1 ((t0, i0) :: rest) s).relayOutEnabled = s.relayOutEnabled) ∧
    (∀ (s : NodeSM) (t0 tT : Nat) (i0 iT : SensorInput)
        (mids : List (Nat × SensorInput)),
      s.currentState = NState.NORMAL → s.faultStartTime = 0 →
      0 < t0 → i0.incomingHigh = false →
      (∀ p ∈ mids, p.2.incomingHigh = false) →
      (∀ p ∈ mids, p.1 ≤ t0 + (DEBOUNCE_MS - 1)) →
      iT.incomingHigh = true →
      (runTicks 1 ((t0, i0) :: mids ++ [(tT, iT)]) s).currentState = NState.NORMAL ∧
      (runTicks 1 ((t0, i0) :: mids ++ [(tT, iT)]) s).faultStartTime = 0) := by
  constructor
  · intro s t0 i0 rest hst hfst ht0 hlow0 hlowr hex
    rw [runTicks_cons]
    have hfirst := tick1_low_first t0 i0 hst hlow0 hfst
    obtain ⟨hrel, hGD, -⟩ := pole1_low_run t0 (Nat.pos_iff_ne_zero.mp ht0) rest
      (tick 1 t0 i0 s) hlowr (Or.inl ⟨hfirst.1, hfirst.2.1⟩)
    exact ⟨hGD (Or.inl hex), hrel.1.trans hfirst.2.2.1, hrel.2.trans hfirst.2.2.2⟩
  · intro s t0 tT i0 iT mids hst hfst ht0 hlow0 hlowm hbnd hhigh
    rw [runTicks_append, runTicks_cons]
    have hfirst := tick1_low_first t0 i0 hst hlow0 hfst
    obtain ⟨-, -, hNM⟩ := pole1_low_run t0 (Nat.pos_iff_ne_zero.mp ht0) mids
      (tick 1 t0 i0 s) hlowm (Or.inl ⟨hfirst.1, hfirst.2.1⟩)
    have hD : DEBOUNCE_MS = 500 := rfl
    obtain ⟨hn, hf⟩ := hNM (fun p hp => by have := hbnd p hp; omega) hfirst.1 hfirst.2.1
    exact tick1_normal_high tT iT hn hhigh

def lowI : SensorInput := { incomingHigh := false, outgoingHigh := false, voltage := 0, current := 0 }

def highI : SensorInput := { incomingHigh := true, outgoingHigh := true, voltage := 220, current := 5 }

def nodeW : NodeSM :=
  { currentState := NState.NORMAL, incomingCurrentHigh := true, outgoingCurrentHigh := true,
    relayInEnabled := true, relayOutEnabled := true, measuredVoltage := 220,
    measuredCurrent := 5, faultFlag := false, buzzer := false, faultStartTime := 0,
    recoveryStart := 0, upstreamOutHigh := false, upstreamDataValid := false }

theorem claim5_witness :
    ((runTicks 1 [(1000, lowI), (1250, lowI), (1500, lowI)] nodeW).currentState =
       NState.GRID_DOWN ∧
     (runTicks 1 [(1000, lowI), (1250, lowI), (1500, lowI)] nodeW).relayInEnabled =
       nodeW.relayInEnabled ∧
     (runTicks 1 [(1000, lowI), (1250, lowI), (1500, lowI)] nodeW).relayOutEnabled =
       nodeW.relayOutEnabled) ∧
    ((runTicks 1 [(1000, lowI), (1499, lowI), (1600, highI)] nodeW).currentState =
       NState.NORMAL ∧
     (runTicks 1 [(1000, lowI), (1499, lowI), (1600, highI)] nodeW).faultStartTime = 0) :=
  ⟨claim5_grid_down_debounce.1 nodeW 1000 lowI [(1250, lowI), (1500, lowI)]
      rfl rfl (by decide) rfl (by decide) (by decide),
   claim5_grid_down_debounce.2 nodeW 1000 1600 lowI highI [(1499, lowI)]
      rfl rfl (by decide) rfl (by decide) (by decide) rfl⟩

theorem handleNormalState_state_cases (pn now : Nat) (s : NodeSM) :
    (handleNormalState pn now s).currentState = s.currentState ∨
    (handleNormalState pn now s).currentState = NState.GRID_DOWN ∨
    (handleNormalState pn now s).currentState = NState.FAULT_UPSTREAM := by
  simp only [handleNormalState]
  split_ifs <;> simp [overTrip_currentState]

theorem handleGridDownState_state_cases (s : NodeSM) :
    (handleGridDownState s).currentState = s.currentState ∨
    (handleGridDownState s).currentState = NState.NORMAL := by
  simp only [handleGridDownState]
  split_ifs <;> simp

theorem handleFaultUpstreamState_state_cases (s : NodeSM) :
    (handleFaultUpstreamState s).currentState = s.currentState ∨
    (handleFaultUpstreamState s).currentState = NState.NORMAL := by
  simp only [handleFaultUpstreamState]
  split_ifs <;> simp

/-- A control tick can only land in FAULT_DOWNSTREAM when the node was
already in FAULT_DOWNSTREAM or reverted from RECOVERY; no other state reaches
it from local sensor data. -/
theorem tick_entry_fault_downstream (pn now : Nat) (inp : SensorInput) (s : NodeSM)
    (hfd : (tick pn now inp s).currentState = NState.FAULT_DOWNSTREAM) :
    s.currentState = NState.FAULT_DOWNSTREAM ∨ s.currentState = NState.RECOVERY := by
  unfold tick runStateMachine at hfd
  have hrs : (readSensors pn inp s).currentState = s.currentState := rfl
  rw [hrs] at hfd
  cases hcs : s.currentState with
  | NORMAL =>
    rw [hcs] at hfd
    rcases handleNormalState_state_cases pn now (readSensors pn inp s) with h | h | h <;>
      rw [h] at hfd
    · rw [hrs, hcs] at hfd; exact absurd hfd (by decide)
    · exact absurd hfd (by decide)
    · exact absurd hfd (by decide)
  | GRID_DOWN =>
    rw [hcs] at hfd
    rcases handleGridDownState_state_cases (readSensors pn inp s) with h | h <;>
      rw [h] at hfd
    · rw [hrs, hcs] at hfd; exact absurd hfd (by decide)
    · exact absurd hfd (by decide)
  | FAULT_UPSTREAM =>
    rw [hcs] at hfd
    rcases handleFaultUpstreamState_state_cases (readSensors pn inp s) with h | h <;>
      rw [h] at hfd
    · rw [hrs, hcs] at hfd; exact absurd hfd (by decide)
    · exact absurd hfd (by decide)
  | FAULT_DOWNSTREAM => exact Or.inl rfl
  | RECOVERY => exact Or.inr rfl

theorem handleFaultDownstreamState_state_cases (pn now : Nat) (s : NodeSM) :
    (handleFaultDownstreamState pn now s).currentState = s.currentState ∨
    (handleFaultDownstreamState pn now s).currentState = NState.RECOVERY := by
  simp only [handleFaultDownstreamState]
  split_ifs <;> simp

theorem handleRecoveryState_state_cases (pn now : Nat) (s : NodeSM) :
    (handleRecoveryState pn now s).currentState = s.currentState ∨
    (handleRecoveryState pn now s).currentState = NState.FAULT_DOWNSTREAM ∨
    (handleRecoveryState pn now s).currentState = NState.NORMAL := by
  unfold handleRecoveryState
  by_cases h : ¬(s.incomingCurrentHigh = true ∧
      (pn = 4 ∨ s.outgoingCurrentHigh = true ∨ s.relayOutEnabled = false))
  · rw [if_pos h]
    right; left; rfl
  · rw [if_neg h]
    by_cases h2 : RECOVERY_MS ≤ now - s.recoveryStart
    · rw [if_pos h2]
      right; right
      show (if pn = 4 then { s with currentState := NState.NORMAL, faultFlag := false }
        else enableRelay pn false true
          { s with currentState := NState.NORMAL, faultFlag := false }).currentState =
        NState.NORMAL
      by_cases h4 : pn = 4
      · rw [if_pos h4]
      · rw [if_neg h4, enableRelay_currentState]
    · rw [if_neg h2]
      left; rfl

/-- A control tick can only land in RECOVERY from FAULT_DOWNSTREAM (outgoing
current observed HIGH again) or by staying in RECOVERY. -/
theorem tick_entry_recovery (pn now : Nat) (inp : SensorInput) (s : NodeSM)
    (hrv : (tick pn now inp s).currentState = NState.RECOVERY) :
    s.currentState = NState.FAULT_DOWNSTREAM ∨ s.currentState = NState.RECOVERY := by
  unfold tick runStateMachine at hrv
  have hrs : (readSensors pn inp s).currentState = s.currentState := rfl
  rw [hrs] at hrv
  cases hcs : s.currentState with
  | NORMAL =>
    rw [hcs] at hrv
    rcases handleNormalState_state_cases pn now (readSensors pn inp s) with h | h | h <;>
      rw [h] at hrv
    · rw [hrs, hcs] at hrv; exact absurd hrv (by decide)
    · exact absurd hrv (by decide)
    · exact absurd hrv (by decide)
  | GRID_DOWN =>
    rw [hcs] at hrv
    rcases handleGridDownState_state_cases (readSensors pn inp s) with h | h <;>
      rw [h] at hrv
    · rw [hrs, hcs] at hrv; exact absurd hrv (by decide)
    · exact absurd hrv (by decide)
  | FAULT_UPSTREAM =>
    rw [hcs] at hrv
    rcases handleFaultUpstreamState_state_cases (readSensors pn inp s) with h | h <;>
      rw [h] at hrv
    · rw [hrs, hcs] at hrv; exact absurd hrv (by decide)
    · exact absurd hrv (by decide)
  | FAULT_DOWNSTREAM => exact Or.inl rfl
  | RECOVERY => exact Or.inr rfl

/-- A DISABLE_OUTGOING_RELAY command puts a non-terminal pole into
FAULT_DOWNSTREAM and disables the outgoing relay, whatever else is in the
polled body. -/
theorem applyCommand_disable_entry (pn now : Nat) (he : Bool) (s : NodeSM) (h4 : pn ≠ 4) :
    (applyCommandBody pn now true he s).currentState = NState.FAULT_DOWNSTREAM ∧
    (applyCommandBody pn now true he s).relayOutEnabled = false := by
  unfold applyCommandBody applyEnableCommand applyDisableCommand
  rw [if_neg (show ¬(he = true ∧ (true : Bool) = false ∧ pn ≠ 4) from
        fun hc => absurd hc.2.1 (by decide)),
    if_pos (show (true : Bool) = true ∧ pn ≠ 4 from ⟨rfl, h4⟩)]
  refine ⟨rfl, ?_⟩
  show (enableRelay pn false false s).relayOutEnabled = false
  simp [enableRelay, h4]

/-- Claim C8 (amended): FAULT_DOWNSTREAM is entered from states other than
RECOVERY only through an explicit DISABLE_OUTGOING_RELAY command, and that
command entry disables the local outgoing relay; a control tick reaches
FAULT_DOWNSTREAM only when the node was already there or reverts from
RECOVERY on locally sensed instability, and RECOVERY itself is reachable by
ticks only from FAULT_DOWNSTREAM. -/
theorem claim8_fault_downstream_entry :
    (∀ pn now inp (s : NodeSM),
      (tick pn now inp s).currentState = NState.FAULT_DOWNSTREAM →
      s.currentState = NState.FAULT_DOWNSTREAM ∨ s.currentState = NState.RECOVERY) ∧
    (∀ pn now (he : Bool) (s : NodeSM), pn ≠ 4 →
      (applyCommandBody pn now true he s).currentState = NState.FAULT_DOWNSTREAM ∧
      (applyCommandBody pn now true he s).relayOutEnabled = false) ∧
    (∀ pn now inp (s : NodeSM),
      (tick pn now inp s).currentState = NState.RECOVERY →
      s.currentState = NState.FAULT_DOWNSTREAM ∨ s.currentState = NState.RECOVERY) :=
  ⟨tick_entry_fault_downstream,
   fun pn now he s h4 => applyCommand_disable_entry pn now he s h4,
   tick_entry_recovery⟩

def c8s : NodeSM := { nodeW with currentState := NState.RECOVERY }

/-- Counterexample to claim C8 as stated: a node in RECOVERY whose incoming
current drops re-enters FAULT_DOWNSTREAM on a plain control tick, without any
command from the queue, and this sensor-driven entry does not touch the
outgoing relay. -/
theorem claim8_counterexample :
    c8s.currentState = NState.RECOVERY ∧
    (tick 2 777 lowI c8s).currentState = NState.FAULT_DOWNSTREAM ∧
    (tick 2 777 lowI c8s).relayOutEnabled = true := by
  decide

def c8fd : NodeSM := { nodeW with currentState := NState.FAULT_DOWNSTREAM }

theorem claim8_witness :
    (c8s.currentState = NState.FAULT_DOWNSTREAM ∨ c8s.currentState = NState.RECOVERY) ∧
    ((applyCommandBody 2 9 true false nodeW).currentState = NState.FAULT_DOWNSTREAM ∧
     (applyCommandBody 2 9 true false nodeW).relayOutEnabled = false) ∧
    (c8fd.currentState = NState.FAULT_DOWNSTREAM ∨ c8fd.currentState = NState.RECOVERY) :=
  ⟨claim8_fault_downstream_entry.1 2 777 lowI c8s (by decide),
   claim8_fault_downstream_entry.2.1 2 9 false nodeW (by decide),
   claim8_fault_downstream_entry.2.2 2 11 highI c8fd (by decide)⟩

/-! ## Claim C6: the staleness sweep -/

theorem stalePoleStep_ne (now : Nat) (acc : ManagerState × Bool × Bool) (q p : String)
    (hne : p ≠ q) :
    (stalePoleStep now acc q).1.poleStates p = acc.1.poleStates p ∧
    (stalePoleStep now acc q).1.lastUpdateTime p = acc.1.lastUpdateTime p := by
  unfold stalePoleStep
  split_ifs <;> constructor <;> simp [hne]

theorem stalePoleStep_none_mono (now : Nat) (acc : ManagerState × Bool × Bool) (q p : String)
    (h : acc.1.poleStates p = none) :
    (stalePoleStep now acc q).1.poleStates p = none := by
  unfold stalePoleStep
  split_ifs
  case pos => by_cases hpq : p = q <;> simp [hpq, h]
  all_goals exact h

theorem stalePoleStep_w_mono (now : Nat) (acc : ManagerState × Bool × Bool) (q : String)
    (hw : acc.2.2 = true) :
    (stalePoleStep now acc q).2.2 = true := by
  unfold stalePoleStep
  split_ifs <;> first | rfl | exact hw

theorem stalePoleStep_clear_self (now : Nat) (acc : ManagerState × Bool × Bool) (p : String)
    (h1 : 0 < acc.1.lastUpdateTime p)
    (h2 : STALE_TIMEOUT_MS < now - acc.1.lastUpdateTime p) :
    (stalePoleStep now acc p).1.poleStates p = none := by
  unfold stalePoleStep
  rw [if_pos h1, if_pos h2]
  by_cases h3 : acc.1.poleStates p ≠ none
  · rw [if_pos h3]; simp
  · rw [if_neg h3]; exact not_ne_iff.mp h3

theorem stalePoleStep_went_stale (now : Nat) (acc : ManagerState × Bool × Bool) (p : String)
    (h1 : 0 < acc.1.lastUpdateTime p)
    (h2 : STALE_TIMEOUT_MS < now - acc.1.lastUpdateTime p)
    (h3 : acc.1.poleStates p ≠ none) :
    (stalePoleStep now acc p).2.2 = true := by
  unfold stalePoleStep
  rw [if_pos h1, if_pos h2, if_pos h3]

/-- A pole that is not fresh at time now never sets the anyActive flag, and
the last-seen table stays pointwise either the original value or zero. -/
theorem stalePoleStep_keep_active (now : Nat) (m0 : ManagerState)
    (acc : ManagerState × Bool × Bool) (q : String)
    (hq : ¬(0 < m0.lastUpdateTime q ∧ now - m0.lastUpdateTime q ≤ STALE_TIMEOUT_MS))
    (hsh : ∀ k, acc.1.lastUpdateTime k = m0.lastUpdateTime k ∨ acc.1.lastUpdateTime k = 0) :
    (stalePoleStep now acc q).2.1 = acc.2.1 ∧
    (∀ k, (stalePoleStep now acc q).1.lastUpdateTime k = m0.lastUpdateTime k ∨
      (stalePoleStep now acc q).1.lastUpdateTime k = 0) := by
  unfold stalePoleStep
  by_cases h1 : 0 < acc.1.lastUpdateTime q
  · rw [if_pos h1]
    by_cases h2 : STALE_TIMEOUT_MS < now - acc.1.lastUpdateTime q
    · rw [if_pos h2]
      by_cases h3 : acc.1.poleStates q ≠ none
      · rw [if_pos h3]
        refine ⟨rfl, fun k => ?_⟩
        by_cases hk : k = q
        · right; simp [hk]
        · simp only [hk, if_false]
          exact hsh k
      · rw [if_neg h3]
        exact ⟨rfl, hsh⟩
    · exfalso
      rcases hsh q with hs | hs
      · rw [hs] at h1 h2
        exact hq ⟨h1, Nat.not_lt.mp h2⟩
      · rw [hs] at h1
        exact Nat.lt_irrefl 0 h1
  · rw [if_neg h1]
    exact ⟨rfl, hsh⟩

theorem sweepFold_none (now : Nat) (p : String) :
    ∀ (L : List String) (acc : ManagerState × Bool × Bool),
      acc.1.poleStates p = none →
      (L.foldl (stalePoleStep now) acc).1.poleStates p = none := by
  intro L
  induction L with
  | nil => intro acc h; exact h
  | cons q tl ih =>
      intro acc h
      rw [List.foldl_cons]
      exact ih _ (stalePoleStep_none_mono now acc q p h)

theorem sweepFold_w_mono (now : Nat) :
    ∀ (L : List String) (acc : ManagerState × Bool × Bool),
      acc.2.2 = true →
      (L.foldl (stalePoleStep now) acc).2.2 = true := by
  intro L
  induction L with
  | nil => intro acc h; exact h
  | cons q tl ih =>
      intro acc h
      rw [List.foldl_cons]
      exact ih _ (stalePoleStep_w_mono now acc q h)

theorem sweepFold_clears (now : Nat) (p : String) :
    ∀ (L : List String) (acc : ManagerState × Bool × Bool), p ∈ L →
      0 < acc.1.lastUpdateTime p →
      STALE_TIMEOUT_MS < now - acc.1.lastUpdateTime p →
      (L.foldl (stalePoleStep now) acc).1.poleStates p = none := by
  intro L
  induction L with
  | nil => intro acc hp _ _; cases hp
  | cons q tl ih =>
      intro acc hp h1 h2
      rw [List.foldl_cons]
      by_cases hpq : p = q
      · subst hpq
        exact sweepFold_none now p tl _ (stalePoleStep_clear_self now acc p h1 h2)
      · obtain ⟨hps, hlu⟩ := stalePoleStep_ne now acc q p hpq
        rcases List.mem_cons.mp hp with heq | htl
        · exact absurd heq hpq
        · exact ih _ htl (by rw [hlu]; exact h1) (by rw [hlu]; exact h2)

theorem sweepFold_went_stale (now : Nat) (m0 : ManagerState) (p : String)
    (h1 : 0 < m0.lastUpdateTime p)
    (h2 : STALE_TIMEOUT_MS < now - m0.lastUpdateTime p)
    (h3 : m0.poleStates p ≠ none) :
    ∀ (L : List String) (acc : ManagerState × Bool × Bool), p ∈ L →
      (acc.2.2 = true ∨
        (acc.1.lastUpdateTime p = m0.lastUpdateTime p ∧
         acc.1.poleStates p = m0.poleStates p)) →
      (L.foldl (stalePoleStep now) acc).2.2 = true := by
  intro L
  induction L with
  | nil => intro acc hp _; cases hp
  | cons q tl ih =>
      intro acc hp hinv
      rw [List.foldl_cons]
      rcases hinv with hw | ⟨hlu, hps⟩
      · exact sweepFold_w_mono now tl _ (stalePoleStep_w_mono now acc q hw)
      · by_cases hpq : p = q
        · subst hpq
          exact sweepFold_w_mono now tl _
            (stalePoleStep_went_stale now acc p (by rw [hlu]; exact h1)
              (by rw [hlu]; exact h2) (by rw [hps]; exact h3))
        · obtain ⟨hps2, hlu2⟩ := stalePoleStep_ne now acc q p hpq
          rcases List.mem_cons.mp hp with heq | htl
          · exact absurd heq hpq
          · exact ih _ htl (Or.inr ⟨hlu2.trans hlu, hps2.trans hps⟩)

theorem sweepFold_inactive (now : Nat) (m0 : ManagerState) :
    ∀ (L : List String) (acc : ManagerState × Bool × Bool),
      (∀ q ∈ L, ¬(0 < m0.lastUpdateTime q ∧ now - m0.lastUpdateTime q ≤ STALE_TIMEOUT_MS)) →
      (∀ k, acc.1.lastUpdateTime k = m0.lastUpdateTime k ∨ acc.1.lastUpdateTime k = 0) →
      (L.foldl (stalePoleStep now) acc).2.1 = acc.2.1 := by
  intro L
  induction L with
  | nil => intro acc _ _; rfl
  | cons q tl ih =>
      intro acc hL hsh
      rw [List.foldl_cons]
      obtain ⟨ha, hsh2⟩ := stalePoleStep_keep_active now m0 acc q
        (hL q (List.mem_cons_self q tl)) hsh
      rw [ih _ (fun r hr => hL r (List.mem_cons_of_mem q hr)) hsh2, ha]

/-- Claim C6: one firing of the 5 s staleness interval nulls the snapshot of
every pole of the order whose nonzero last-seen stamp is more than
STALE_TIMEOUT_MS = 15000 ms old; and when some pole goes stale at this very
sweep (nonzero old stamp, snapshot still present) while no pole of the order
is fresh any more, the same sweep resets the whole context: baseline
systemState (WAITING for real, SIM_IDLE for sim), all queues empty, all
snapshots null. -/
theorem claim6_staleness_reset (t : CtxType) (now : Nat) (m : ManagerState) :
    (∀ p, p ∈ POLE_ORDER → 0 < m.lastUpdateTime p →
      STALE_TIMEOUT_MS < now - m.lastUpdateTime p →
      (stalenessSweep t now m).poleStates p = none) ∧
    ((∃ p, p ∈ POLE_ORDER ∧ 0 < m.lastUpdateTime p ∧
        STALE_TIMEOUT_MS < now - m.lastUpdateTime p ∧ m.poleStates p ≠ none) →
      (∀ p, p ∈ POLE_ORDER →
        ¬(0 < m.lastUpdateTime p ∧ now - m.lastUpdateTime p ≤ STALE_TIMEOUT_MS)) →
      (stalenessSweep t now m).systemState = initialSystemState t ∧
      (∀ q, (stalenessSweep t now m).pendingCommands q = []) ∧
      (∀ q, (stalenessSweep t now m).poleStates q = none)) := by
  constructor
  · intro p hp h1 h2
    unfold stalenessSweep
    by_cases hc : (POLE_ORDER.foldl (stalePoleStep now) (m, false, false)).2.2 = true ∧
        (POLE_ORDER.foldl (stalePoleStep now) (m, false, false)).2.1 = false
    · rw [if_pos hc]; rfl
    · rw [if_neg hc]
      exact sweepFold_clears now p POLE_ORDER (m, false, false) hp h1 h2
  · rintro ⟨p, hp, h1, h2, h3⟩ hall
    have hW : (POLE_ORDER.foldl (stalePoleStep now) (m, false, false)).2.2 = true :=
      sweepFold_went_stale now m p h1 h2 h3 POLE_ORDER (m, false, false) hp
        (Or.inr ⟨rfl, rfl⟩)
    have hA : (POLE_ORDER.foldl (stalePoleStep now) (m, false, false)).2.1 = false := by
      rw [sweepFold_inactive now m POLE_ORDER (m, false, false) hall (fun k => Or.inl rfl)]
    unfold stalenessSweep
    rw [if_pos ⟨hW, hA⟩]
    exact ⟨rfl, fun q => rfl, fun q => rfl⟩

/-- A context where every pole reported at 100 ms, holds a snapshot and a
pending command, and the sweep fires at 20000 ms: everything is stale. -/
def c6m : ManagerState :=
  { poleStates := fun k => if k ∈ POLE_ORDER then some (mkSnap k "HIGH" "HIGH") else none
    pendingCommands := fun k =>
      if k = "Pole2" then [{ action := "DISABLE_OUTGOING_RELAY", reason := "w" }] else []
    lastUpdateTime := fun k => if k ∈ POLE_ORDER then 100 else 0
    systemState := { initialSystemState CtxType.real with status := "FAULT" } }

theorem claim6_witness :
    (stalenessSweep CtxType.real 20000 c6m).poleStates "Pole3" = none ∧
    (stalenessSweep CtxType.real 20000 c6m).systemState = initialSystemState CtxType.real ∧
    (stalenessSweep CtxType.real 20000 c6m).pendingCommands "Pole2" = [] ∧
    (stalenessSweep CtxType.real 20000 c6m).poleStates "Pole1" = none :=
  ⟨(claim6_staleness_reset CtxType.real 20000 c6m).1 "Pole3" (by decide) (by decide)
      (by decide),
   ((claim6_staleness_reset CtxType.real 20000 c6m).2 (by decide) (by decide)).1,
   ((claim6_staleness_reset CtxType.real 20000 c6m).2 (by decide) (by decide)).2.1 "Pole2",
   ((claim6_staleness_reset CtxType.real 20000 c6m).2 (by decide) (by decide)).2.2 "Pole1"⟩

/-! ## Claim C7: mode gating of the publish route -/

/-- Claim C7: a publish whose declared context does not match the operating
mode - any publish while the mode is IDLE, a simulation-tagged publish while
the mode is REAL, a real-tagged publish while the mode is SIM - is answered
with a 403 error before any work, and the server state (both contexts:
stores, queues, systemState) is returned untouched. -/
theorem claim7_mode_gating (mode : String) (now : Nat) (nowIso : String) (b : Body)
    (srv : ServerState)
    (h : mode = "IDLE" ∨ (mode = "REAL" ∧ b.isSimulation = true) ∨
         (mode = "SIM" ∧ b.isSimulation = false)) :
    postState mode now nowIso b srv = (Response.error 403, srv) := by
  unfold postState
  rcases h with h | h | h
  · rw [if_pos h]
  · by_cases hI : mode = "IDLE"
    · rw [if_pos hI]
    · rw [if_neg hI, if_pos h]
  · by_cases hI : mode = "IDLE"
    · rw [if_pos hI]
    · rw [if_neg hI]
      by_cases hR : mode = "REAL" ∧ b.isSimulation = true
      · rw [if_pos hR]
      · rw [if_neg hR, if_pos h]

def c7body : Body := { emptyBody with poleId := "Pole2", isSimulation := true }

theorem claim7_witness :
    postState "REAL" 5 "t" c7body initialServerState =
      (Response.error 403, initialServerState) :=
  claim7_mode_gating "REAL" 5 "t" c7body initialServerState
    (Or.inr (Or.inl ⟨rfl, rfl⟩))

/-! ## Claim C9: unknown pole ids -/

def c9body : Body :=
  { emptyBody with poleId := "Pole9", action := some "ENABLE_OUTGOING_RELAY" }

/-- Counterexample to claim C9 as stated: a publish naming the unknown pole
id Pole9 in REAL mode is answered ok, creates a snapshot entry and a
last-seen stamp for Pole9, and an admin command for Pole9 is answered ok and
creates a pending queue entry for it - no rejection, mutation applied. -/
theorem claim9_counterexample :
    (postState "REAL" 5 "t" c9body initialServerState).1 = Response.ok ∧
    (postState "REAL" 5 "t" c9body initialServerState).2.real.poleStates "Pole9" =
      some (buildStateData "t" c9body) ∧
    (postState "REAL" 5 "t" c9body initialServerState).2.real.lastUpdateTime "Pole9" = 5 ∧
    (postCommand "REAL" c9body initialServerState).1 = Response.ok ∧
    (postCommand "REAL" c9body initialServerState).2.real.pendingCommands "Pole9" =
      [{ action := "ENABLE_OUTGOING_RELAY", reason := "Manual command" }] := by
  refine ⟨rfl, ?_, ?_, rfl, ?_⟩ <;> decide

/-- In REAL mode a real-context publish always succeeds: the gate passes and
the real manager stores the snapshot under whatever pole id the body names. -/
theorem postState_real (now : Nat) (nowIso : String) (b : Body) (srv : ServerState)
    (hmode : b.isSimulation = false) :
    postState "REAL" now nowIso b srv =
      (Response.ok,
       { srv with real := updatePole now b.poleId (buildStateData nowIso b) srv.real }) := by
  unfold postState
  rw [if_neg (show ¬("REAL" : String) = "IDLE" from by decide),
    if_neg (show ¬(("REAL" : String) = "REAL" ∧ b.isSimulation = true) from
      fun hc => by rw [hmode] at hc; exact absurd hc.2 (by decide)),
    if_neg (show ¬(("REAL" : String) = "SIM" ∧ b.isSimulation = false) from
      fun hc => absurd hc.1 (by decide)), hmode]
  rfl

/-- In REAL mode a real-context command with nonempty pole id and action is
queued to the real manager under that pole id, validated or not. -/
theorem postCommand_queue (b : Body) (srv : ServerState) (a : String)
    (hmode : b.isSimulation = false) (hact : b.action = some a)
    (hane : a ≠ "") (hpne : b.poleId ≠ "") :
    postCommand "REAL" b srv =
      (Response.ok,
       { srv with real :=
          (queueManagerCommand b.poleId (Command.mk a (jsOrStr b.reason "Manual command"))
            srv.real) }) := by
  unfold postCommand
  rw [if_neg (show ¬("REAL" : String) = "IDLE" from by decide),
    if_neg (show ¬(("REAL" : String) = "REAL" ∧ b.isSimulation = true) from
      fun hc => by rw [hmode] at hc; exact absurd hc.2 (by decide)),
    if_neg (show ¬(("REAL" : String) = "SIM" ∧ b.isSimulation = false) from
      fun hc => absurd hc.1 (by decide)), hact]
  show (if b.poleId = "" ∨ a = "" then (Response.error 400, srv) else _) = _
  rw [if_neg (fun hc => hc.elim hpne hane), hmode]
  rfl

/-- Claim C9, amended: only the command-polling GET route validates the pole
id against POLE_ORDER (400, nothing drained, nothing changed); the publish
route stores a snapshot and stamps last-seen under any pole id whatsoever,
and the admin command route queues under any nonempty pole id. -/
theorem claim9_amended (isSim : Bool) (pid : String) (srv : ServerState)
    (now : Nat) (nowIso : String) (b : Body)
    (hpid : pid ∉ POLE_ORDER)
    (hmode : b.isSimulation = false) :
    getCommandsEndpoint isSim pid srv = (Response.error 400, [], srv) ∧
    postState "REAL" now nowIso b srv =
      (Response.ok,
       { srv with real := updatePole now b.poleId (buildStateData nowIso b) srv.real }) ∧
    (postState "REAL" now nowIso b srv).2.real.poleStates b.poleId =
      some (buildStateData nowIso b) ∧
    (postState "REAL" now nowIso b srv).2.real.lastUpdateTime b.poleId = now ∧
    (∀ a, b.action = some a → a ≠ "" → b.poleId ≠ "" →
      (postCommand "REAL" b srv).1 = Response.ok ∧
      (postCommand "REAL" b srv).2.real.pendingCommands b.poleId =
        srv.real.pendingCommands b.poleId ++
          [{ action := a, reason := jsOrStr b.reason "Manual command" }]) := by
  refine ⟨?_, postState_real now nowIso b srv hmode, ?_, ?_, ?_⟩
  · unfold getCommandsEndpoint
    rw [if_pos hpid]
  · rw [postState_real now nowIso b srv hmode]
    simp [updatePole]
  · rw [postState_real now nowIso b srv hmode]
    simp [updatePole]
  · intro a hact hane hpne
    rw [postCommand_queue b srv a hmode hact hane hpne]
    exact ⟨rfl, by simp [queueManagerCommand]⟩

def c9wb : Body :=
  { emptyBody with poleId := "PoleX", action := some "DISABLE_OUTGOING_RELAY" }

theorem claim9_witness :
    getCommandsEndpoint false "PoleX" initialServerState =
      (Response.error 400, [], initialServerState) ∧
    (postState "REAL" 7 "t" c9wb initialServerState).2.real.poleStates "PoleX" =
      some (buildStateData "t" c9wb) ∧
    (postState "REAL" 7 "t" c9wb initialServerState).2.real.lastUpdateTime "PoleX" = 7 ∧
    (postCommand "REAL" c9wb initialServerState).2.real.pendingCommands "PoleX" =
      [{ action := "DISABLE_OUTGOING_RELAY", reason := "Manual command" }] :=
  ⟨(claim9_amended false "PoleX" initialServerState 7 "t" c9wb (by decide) rfl).1,
   (claim9_amended false "PoleX" initialServerState 7 "t" c9wb (by decide) rfl).2.2.1,
   (claim9_amended false "PoleX" initialServerState 7 "t" c9wb (by decide) rfl).2.2.2.1,
   by
    have h := (claim9_amended false "PoleX" initialServerState 7 "t" c9wb (by decide)
      rfl).2.2.2.2 "DISABLE_OUTGOING_RELAY" rfl (by decide) (by decide)
    exact h.2⟩

/-! ## Claim C10: the body spread overrides the sanitized fields -/

/-- Claim C10: because the stateData literal spreads the raw request body
after the sanitized fields, any canonical field present in the body is
stored verbatim - including an arbitrary unvalidated nodeState string and an
outgoingCurrent on Pole4, which is forced to N/A only when the body omits
the field. -/
theorem claim10_spread_override (nowIso : String) (b : Body) :
    (∀ s, b.incomingCurrent = some s → (buildStateData nowIso b).incomingCurrent = s) ∧
    (∀ s, b.outgoingCurrent = some s → (buildStateData nowIso b).outgoingCurrent = s) ∧
    (∀ s, b.relayIn = some s → (buildStateData nowIso b).relayIn = s) ∧
    (∀ s, b.relayOut = some s → (buildStateData nowIso b).relayOut = s) ∧
    (∀ s, b.nodeState = some s → (buildStateData nowIso b).nodeState = s) ∧
    (∀ s, b.timestamp = some s → (buildStateData nowIso b).timestamp = s) ∧
    (b.poleId = "Pole4" → b.outgoingCurrent = none →
      (buildStateData nowIso b).outgoingCurrent = "N/A") := by
  refine ⟨fun s h => ?_, fun s h => ?_, fun s h => ?_, fun s h => ?_, fun s h => ?_,
    fun s h => ?_, fun h4 hn => ?_⟩
  · simp [buildStateData, h]
  · simp [buildStateData, h]
  · simp [buildStateData, h]
  · simp [buildStateData, h]
  · simp [buildStateData, h]
  · simp [buildStateData, h]
  · simp [buildStateData, h4, hn]

def c10b : Body :=
  { emptyBody with
      poleId := "Pole4"
      outgoingCurrent := some "HIGH"
      nodeState := some "TOTALLY_BOGUS" }

def c10n : Body := { emptyBody with poleId := "Pole4" }

theorem claim10_witness :
    (buildStateData "iso" c10b).outgoingCurrent = "HIGH" ∧
    (buildStateData "iso" c10b).nodeState = "TOTALLY_BOGUS" ∧
    (buildStateData "iso" c10n).outgoingCurrent = "N/A" :=
  ⟨(claim10_spread_override "iso" c10b).2.1 "HIGH" rfl,
   (claim10_spread_override "iso" c10b).2.2.2.2.1 "TOTALLY_BOGUS" rfl,
   (claim10_spread_override "iso" c10n).2.2.2.2.2.2 rfl rfl⟩

end PoleChain
